import Mathlib

/-!
Verification of the set-validation engine of `pkmn-archive/datax`
(`src/sets.ts`, with the `Species` interface of `src/species.ts`).

The external data tables of the `pkmn` package (`Rules`, `Moves`, `Items`,
`Natures`, `Stats`, and the `Species` lookup, which in this repository is an
unfinished stub) are opaque data providers per the specification; they are
modelled as the fields of an `Env` record, and every theorem quantifies over
the environment.  JavaScript strings are `String`, numbers are `Nat` (IVs,
EVs, levels, generations) or `Int` (stat-boost stages, species numbers), the
gender ratio fraction is `Rat`, and optional fields are `Option` with the
source's truthiness tests spelled out.  Problem strings are represented by
the inductive `Problem`, one constructor per `problems.push` site of the
source, carrying exactly the data interpolated into the message; `render`
reproduces the source's message text for each constructor.
-/

namespace Datax

/-- A full stats table (`pkmn.StatsTable`): hp/atk/def/spa/spd/spe.  The
`def` field is called `df` because `def` is a reserved word. -/
structure StatsTable where
  hp : Nat
  atk : Nat
  df : Nat
  spa : Nat
  spd : Nat
  spe : Nat
  deriving DecidableEq

/-- A table of stat-boost stages (`pkmn.BoostsTable`, each field optional in
the source; an absent field behaves exactly like `0` in every truthiness and
`> 0` test of `sets.ts`, so absent fields are represented by `0`). -/
structure Boosts where
  atk : Int
  df : Int
  spa : Int
  spd : Int
  spe : Int
  deriving DecidableEq

/-- The fields of `pkmn.Move` that `sets.ts` reads: `id`, display `name`,
`type` (called `ty`), the `ohko` flag, ordinary `boosts` and `zMoveBoosts`. -/
structure Move where
  id : String
  name : String
  ty : String
  ohko : Bool
  boosts : Option Boosts
  zMoveBoosts : Option Boosts
  deriving DecidableEq

/-- The fields of `pkmn.Item` that `sets.ts` reads. -/
structure Item where
  id : String
  name : String
  zMove : Bool
  zMoveType : String
  deriving DecidableEq

/-- A nature; `sets.ts` only ever interpolates it into a message. -/
structure Nature where
  name : String
  deriving DecidableEq

/-- An ability record.  `sets.ts` itself never consults an ability table
(it resolves abilities through the item table, see `abilityProblems`); this
type exists so that the notion "valid ability for a generation" of the
specification can be stated.  Modelled from the spec: "generation >= 3
requires a resolvable ability". -/
structure Ability where
  id : String
  name : String
  deriving DecidableEq

/-- The species gender ratio `{M, F}` of `src/species.ts`. -/
structure GenderRatio where
  M : Rat
  F : Rat

/-- The fields of the `Species` record (`src/species.ts` extending
`pkmn.Species`) that `Sets.validate` reads.  `gender` is `Option` because a
species with a gender ratio has no fixed gender; `prevo`/`evos` are `Option`
mirroring the optional fields, with truthiness as in JavaScript. -/
structure Species where
  name : String
  baseSpecies : String
  tier : String
  gen : Nat
  num : Int
  gender : Option String
  genderRatio : GenderRatio
  prevo : Option String
  evos : Option (List String)
  eggGroups : List String

/-- `pkmn.PokemonSet`: the set under validation.  `level` is `Option Nat`
(absent or a number; the source tests `set.level && ...`, under which an
absent level and level `0` behave identically). -/
structure PokemonSet where
  name : String
  species : String
  item : String
  ability : String
  moves : List String
  nature : String
  gender : String
  evs : StatsTable
  ivs : StatsTable
  level : Option Nat
  shiny : Bool

/-- `pkmn.Format`: a format identifier and its generation. -/
structure Format where
  id : String
  gen : Nat

/-- The rule set of a format: the set of active clause names. -/
structure RuleSet where
  clauses : List String

/-- The opaque external collaborators of `Sets.validate` (specification
section 6): the rule resolver, the data providers keyed by generation, and
the stat/DV conversion helpers of `pkmn.Stats`.  `abilitiesGet` is the
ability table implied by the specification's "requires a resolvable
ability"; the source never reads it (see `abilityProblems`). -/
structure Env where
  rulesGet : Format → Option RuleSet
  isLittleCup : RuleSet → Bool
  speciesGet : String → Nat → Option Species
  movesGet : String → Nat → Option Move
  itemsGet : String → Nat → Option Item
  naturesGet : String → Option Nature
  abilitiesGet : String → Nat → Option Ability
  toID : String → String
  itod : Nat → Nat
  istods : StatsTable → StatsTable
  getHPDV : StatsTable → Nat

/-- JavaScript truthiness of an optional string (`undefined` and `""` are
falsy). -/
def strOptTruthy : Option String → Bool
  | none => false
  | some s => s != ""

/-- `Species.nfe` of `src/species.ts`: `s.evos && s.evos.length` used as a
boolean. -/
def Species.nfe (s : Species) : Bool :=
  match s.evos with
  | none => false
  | some l => l.length != 0

/-- One constructor per `problems.push` site of `Sets.validate`
(`src/sets.ts`), carrying the data interpolated into the message. -/
inductive Problem where
  | invalidFormat (fmt : String)
  | invalidSpecies (species : String) (gen : Nat)
  | illegalTier (pokemon : String) (gen : Nat)
  | unreleasedTier (pokemon : String) (gen : Nat)
  | notFirstInFamily (pokemon : String)
  | noEvoFamily (pokemon : String)
  | lcLevel (pokemon : String)
  | overLevel100 (pokemon : String)
  | tooManyMoves (pokemon : String)
  | invalidMove (move : String) (gen : Nat)
  | duplicateMove (pokemon : String) (move : String)
  | ohkoClause (move : String)
  | evasionMovesClause (move : String)
  | swaggerClause (move : String)
  | sleepTrap (pokemon : String) (gen : Nat)
  | batonPassClause (pokemon : String)
  | noMoves (pokemon : String)
  | wrongGender (pokemon : String) (declared : String) (species : Option String)
  | genderDVMismatch (pokemon : String) (declared : String) (atkDV : Nat) (expected : String)
  | evParity (pokemon : String) (spa : Nat) (spd : Nat)
  | legendaryIVFloor (pokemon : String) (gen : Nat)
  | ivParity (pokemon : String) (spa : Nat) (spd : Nat)
  | hpDVMismatch (pokemon : String) (hpDV : Nat) (expected : Nat)
  | shinyMismatch (pokemon : String) (shiny : Bool)
  | natureGen12 (pokemon : String) (gen : Nat) (nature : String)
  | invalidNature (nature : String) (gen : Nat)
  | natureRequired (pokemon : String) (gen : Nat)
  | invalidAbility (ability : String) (gen : Nat)
  | evasionAbilitiesClause (ability : String)
  | moodyClause (ability : String)
  | abilitiesDoNotExist (pokemon : String) (gen : Nat) (ability : String)
  | invalidItem (item : String) (gen : Nat)
  | griseousOrb
  | itemsDoNotExist (pokemon : String) (gen : Nat) (item : String)
  deriving DecidableEq

/-- The message text of each problem, as built by the string interpolations
of `src/sets.ts` (including the source's own typo "in unreleased in").
Objects interpolated with `${...}` print their display representation:
a `Format` prints its identifier, a `Move` or `Nature` its display name,
and an undefined species gender prints "undefined". -/
def render : Problem → String
  | .invalidFormat fmt => fmt ++ " is not a valid format."
  | .invalidSpecies s g => s ++ " is not a valid species for generation " ++ toString g
  | .illegalTier p g => p ++ " does not exist outside of generation " ++ toString g ++ "."
  | .unreleasedTier p g => p ++ " in unreleased in generation " ++ toString g ++ "."
  | .notFirstInFamily p => p ++ " isn't the first in its evolution family."
  | .noEvoFamily p => p ++ " doesn't have an evolution family."
  | .lcLevel p => p ++ " must be level 5 or under in Little Cup."
  | .overLevel100 p => p ++ " is higher than level 100."
  | .tooManyMoves p => p ++ " has more than four moves."
  | .invalidMove m g => m ++ " is not a valid move for generation " ++ toString g
  | .duplicateMove p m => p ++ " may not have duplicate moves (" ++ m ++ " is duplicated)."
  | .ohkoClause m => m ++ " is banned by OHKO Clause."
  | .evasionMovesClause m => m ++ " is banned by Evasion Moves Clause."
  | .swaggerClause m => m ++ " is banned by Swagger Clause."
  | .sleepTrap p g =>
    p ++ " has both a sleeping and a trapping move, a combination which is banned in generation "
      ++ toString g ++ "."
  | .batonPassClause p =>
    p ++ " can Baton Pass both Speed and a different stat, which is banned by Baton Pass Clause."
  | .noMoves p => p ++ " must have at least one move."
  | .wrongGender p d sg =>
    p ++ " is the wrong gender for its species (" ++ d ++ " vs. "
      ++ (match sg with | some g => g | none => "undefined") ++ ")."
  | .genderDVMismatch p d dv e =>
    p ++ " is " ++ d ++ ", but it has an Atk DV of " ++ toString dv
      ++ ", which makes its gender " ++ e ++ "."
  | .evParity p a b =>
    "Before generation 3, SpA and SpD EVs must match (" ++ p ++ " has " ++ toString a
      ++ " SpA and " ++ toString b ++ " SpD EVs)."
  | .legendaryIVFloor p g =>
    p ++ " must have at least three perfect IVs because it's a legendary in generation "
      ++ toString g ++ "."
  | .ivParity p a b =>
    "Before generation 3, SpA and SpD IVs must match (" ++ p ++ " has " ++ toString a
      ++ " SpA and " ++ toString b ++ " SpD IVs)."
  | .hpDVMismatch p d e =>
    p ++ " has an HP DV of " ++ toString d ++ ", but its Atk, Def, Spe and Spc DVs give it an HP DV of "
      ++ toString e ++ "."
  | .shinyMismatch p sh =>
    p ++ " is" ++ (if sh then " not " else " ") ++ "shiny, which does not match its DVs."
  | .natureGen12 p g n =>
    "Natures do not exist in generation " ++ toString g ++ " (" ++ p ++ " has " ++ n ++ ")"
  | .invalidNature n g => n ++ " is not a valid nature in generation " ++ toString g
  | .natureRequired p g => p ++ " requires a nature in generation " ++ toString g
  | .invalidAbility a g => a ++ " is not a valid ability for generation " ++ toString g
  | .evasionAbilitiesClause a => a ++ " is banned by Evasion Abilities Clause."
  | .moodyClause a => a ++ " is banned by Moody Clause."
  | .abilitiesDoNotExist p g a =>
    "Abilities do not exist in generation " ++ toString g ++ " (" ++ p ++ " has ability " ++ a ++ ")"
  | .invalidItem i g => i ++ " is not a valid item for generation " ++ toString g
  | .griseousOrb => "Griseous Orb can only be held by Giratina in Generation 4."
  | .itemsDoNotExist p g i =>
    "Held items do not exist in generation " ++ toString g ++ " (" ++ p ++ " has item " ++ i ++ ")"

/-- A numeric tag identifying a problem's constructor, used to speak about
"the problems of a given kind" in a list. -/
def Problem.kind : Problem → Nat
  | .invalidFormat _ => 0
  | .invalidSpecies _ _ => 1
  | .illegalTier _ _ => 2
  | .unreleasedTier _ _ => 3
  | .notFirstInFamily _ => 4
  | .noEvoFamily _ => 5
  | .lcLevel _ => 6
  | .overLevel100 _ => 7
  | .tooManyMoves _ => 8
  | .invalidMove _ _ => 9
  | .duplicateMove _ _ => 10
  | .ohkoClause _ => 11
  | .evasionMovesClause _ => 12
  | .swaggerClause _ => 13
  | .sleepTrap _ _ => 14
  | .batonPassClause _ => 15
  | .noMoves _ => 16
  | .wrongGender _ _ _ => 17
  | .genderDVMismatch _ _ _ _ => 18
  | .evParity _ _ _ => 19
  | .legendaryIVFloor _ _ => 20
  | .ivParity _ _ _ => 21
  | .hpDVMismatch _ _ _ => 22
  | .shinyMismatch _ _ => 23
  | .natureGen12 _ _ _ => 24
  | .invalidNature _ _ => 25
  | .natureRequired _ _ => 26
  | .invalidAbility _ _ => 27
  | .evasionAbilitiesClause _ => 28
  | .moodyClause _ => 29
  | .abilitiesDoNotExist _ _ _ => 30
  | .invalidItem _ _ => 31
  | .griseousOrb => 32
  | .itemsDoNotExist _ _ _ => 33

/-- `kindIs k p` holds when `p` is a problem of kind `k`. -/
def kindIs (k : Nat) (p : Problem) : Bool := p.kind == k

/-- The insertion-ordered move table `{[k: string]: pkmn.Move}` of the move
loop, as an association list: JavaScript objects with non-numeric string
keys iterate in insertion order, and overwriting a key keeps its position. -/
abbrev MoveTable := List (String × Move)

/-- Lookup, `moveTable[k]`. -/
def tableGet : MoveTable → String → Option Move
  | [], _ => none
  | (k0, v0) :: t, k => if k0 = k then some v0 else tableGet t k

/-- Assignment `moveTable[k] = v`: overwrite in place if the key is present,
otherwise append (JavaScript object key order). -/
def tableSet : MoveTable → String → Move → MoveTable
  | [], k, v => [(k, v)]
  | (k0, v0) :: t, k, v => if k0 = k then (k0, v) :: t else (k0, v0) :: tableSet t k v

/-- `const pokemon = set.name || set.species` (empty string is falsy). -/
def pokemonName (set : PokemonSet) : String :=
  if set.name = "" then set.species else set.name

/-- The tier check of `Sets.validate`. -/
def tierProblems (species : Species) (pokemon : String) : List Problem :=
  if species.tier = "Illegal" then [Problem.illegalTier pokemon species.gen]
  else if species.tier = "Unreleased" then [Problem.unreleasedTier pokemon species.gen]
  else []

/-- The level check of `Sets.validate`: Little-Cup rulesets check the
evolution family and level 5; other rulesets check level 100.
`set.level && set.level > n` is `set.level.getD 0 > n`. -/
def levelProblems (env : Env) (rules : RuleSet) (species : Species) (set : PokemonSet)
    (pokemon : String) : List Problem :=
  if env.isLittleCup rules then
    (if strOptTruthy species.prevo then [Problem.notFirstInFamily pokemon]
     else if !species.nfe then [Problem.noEvoFamily pokemon]
     else [])
    ++ (if 5 < set.level.getD 0 then [Problem.lcLevel pokemon] else [])
  else
    if 100 < set.level.getD 0 then [Problem.overLevel100 pokemon] else []

/-- The OHKO / Evasion Moves / Swagger clause checks run on one resolved
move (the `continue` chain of the loop: at most one clause problem per
move). -/
def clauseChecks (rules : RuleSet) (move : Move) : List Problem :=
  if rules.clauses.contains "OHKO" && move.ohko then
    [Problem.ohkoClause move.name]
  else if rules.clauses.contains "Evasion Moves"
      && (move.name == "Minimize" || move.name == "Double Team") then
    [Problem.evasionMovesClause move.name]
  else if rules.clauses.contains "Swagger" && move.name == "Swagger" then
    [Problem.swaggerClause move.name]
  else []

/-- The body of the per-move loop of `Sets.validate`: resolve each move,
report unresolvable ones, report duplicates (by id, against the table built
so far), insert into the table, then run the clause checks. -/
def moveLoop (env : Env) (rules : RuleSet) (format : Format) (pokemon : String) :
    MoveTable → List String → List Problem × MoveTable
  | table, [] => ([], table)
  | table, m :: ms =>
    match env.movesGet m format.gen with
    | none =>
      let r := moveLoop env rules format pokemon table ms
      (Problem.invalidMove m format.gen :: r.1, r.2)
    | some move =>
      let dup : List Problem :=
        if (tableGet table move.id).isSome then [Problem.duplicateMove pokemon move.name] else []
      let r := moveLoop env rules format pokemon (tableSet table move.id move) ms
      (dup ++ clauseChecks rules move ++ r.1, r.2)

/-- `SLEEP_MOVES` of `checkSleepTrap`. -/
def SLEEP_MOVES : List String := ["hypnosis", "lovelykiss", "sing", "sleeppowder", "spore"]

/-- `TRAP_MOVES` of `checkSleepTrap`. -/
def TRAP_MOVES : List String := ["meanlook", "spiderweb"]

/-- `checkSleepTrap` of `src/sets.ts`: iterate the move table, marking
`sleep` on a sleep move and (`else if`) `trap` on a trapping move. -/
def checkSleepTrap (moves : MoveTable) : Bool :=
  let r := moves.foldl
    (fun (st : Bool × Bool) kv =>
      if SLEEP_MOVES.contains kv.2.id then (true, st.2)
      else if TRAP_MOVES.contains kv.2.id then (st.1, true)
      else st)
    (false, false)
  r.1 && r.2

/-- `SPEED_BOOST_ABILITIES` of `checkBatonPass`. -/
def SPEED_BOOST_ABILITIES : List String :=
  ["motordrive", "rattled", "speedboost", "steadfast", "weakarmor"]

/-- `SPEED_BOOST_ITEMS` of `checkBatonPass`. -/
def SPEED_BOOST_ITEMS : List String :=
  ["blazikenite", "eeviumz", "kommoniumz", "salacberry"]

/-- `NON_SPEED_BOOST_ABILITIES` of `checkBatonPass`. -/
def NON_SPEED_BOOST_ABILITIES : List String :=
  ["angerpoint", "competitive", "defiant", "download", "justified",
   "lightningrod", "moxie", "sapsipper", "stormdrain"]

/-- `NON_SPEED_BOOST_ITEMS` of `checkBatonPass`. -/
def NON_SPEED_BOOST_ITEMS : List String :=
  ["absorbbulb", "apicotberry", "cellbattery", "eeviumz", "ganlonberry",
   "keeberry", "kommoniumz", "liechiberry", "luminousmoss", "marangaberry",
   "petayaberry", "snowball", "starfberry", "weaknesspolicy"]

/-- `NON_SPEED_BOOST_MOVES` of `checkBatonPass`. -/
def NON_SPEED_BOOST_MOVES : List String :=
  ["acupressure", "bellydrum", "chargebeam", "curse", "diamondstorm",
   "fellstinger", "fierydance", "flowershield", "poweruppunch", "rage",
   "rototiller", "skullbash", "stockpile"]

/-- The `string|boolean` tri-state of `checkBatonPass`'s `speedBoosted` and
`nonSpeedBoosted` variables. -/
inductive BoostVal where
  | bool (b : Bool)
  | str (s : String)
  deriving DecidableEq

/-- JavaScript truthiness of a `string|boolean` (the empty string is
falsy). -/
def BoostVal.truthy : BoostVal → Bool
  | .bool b => b
  | .str s => s != ""

/-- `typeof v === 'string'`. -/
def BoostVal.isStr : BoostVal → Bool
  | .bool _ => false
  | .str _ => true

/-- `b && b.spe && b.spe > 0` on an optional boosts table. -/
def posSpe : Option Boosts → Bool
  | none => false
  | some b => decide (0 < b.spe)

/-- `b && (b.atk > 0 || b.def > 0 || b.spa > 0 || b.spd > 0)` (with each
field's truthiness test) on an optional boosts table. -/
def posNonSpe : Option Boosts → Bool
  | none => false
  | some b =>
    decide (0 < b.atk) || decide (0 < b.df) || decide (0 < b.spa) || decide (0 < b.spd)

/-- A move is a Speed-boost source by itself: Flame Charge, or a positive
Speed stat-boost effect (`checkBatonPass`, first test of the loop). -/
def moveSpeedBoost (mv : Move) : Bool :=
  mv.id == "flamecharge" || posSpe mv.boosts

/-- A move is a non-Speed-boost source by itself: one of the fixed list, or
a positive Atk/Def/SpA/SpD boost (`checkBatonPass`, second test). -/
def moveNonSpeedBoost (mv : Move) : Bool :=
  NON_SPEED_BOOST_MOVES.contains mv.id || posNonSpe mv.boosts

/-- `item && item.zMove && move.type === item.zMoveType`: the held item is a
Z-crystal matching the move's type. -/
def zMatches (item : Option Item) (mv : Move) : Bool :=
  match item with
  | none => false
  | some i => i.zMove && mv.ty == i.zMoveType

/-- The move's Z-move form grants a positive Speed boost (with a matching
Z-crystal held). -/
def zSpeedBoost (item : Option Item) (mv : Move) : Bool :=
  zMatches item mv && posSpe mv.zMoveBoosts

/-- The move's Z-move form grants a positive non-Speed boost (with a
matching Z-crystal held). -/
def zNonSpeedBoost (item : Option Item) (mv : Move) : Bool :=
  zMatches item mv && posNonSpe mv.zMoveBoosts

/-- One iteration of `checkBatonPass`'s move loop over the state
`(speedBoosted, nonSpeedBoosted)`: the ordinary-boost tests set the flags to
`true`; then, under a matching Z-crystal, a Z-Speed boost sets
`speedBoosted` to the move's name unless already truthy, and a Z-non-Speed
boost sets `nonSpeedBoosted` to the move's name when it is falsy or when the
name equals the current `speedBoosted`. -/
def bpStep (item : Option Item) (st : BoostVal × BoostVal) (mv : Move) : BoostVal × BoostVal :=
  let sb1 := if moveSpeedBoost mv then BoostVal.bool true else st.1
  let nsb1 := if moveNonSpeedBoost mv then BoostVal.bool true else st.2
  if zMatches item mv then
    let sb2 := if posSpe mv.zMoveBoosts && !sb1.truthy then BoostVal.str mv.name else sb1
    let nsb2 :=
      if posNonSpe mv.zMoveBoosts && (!nsb1.truthy || BoostVal.str mv.name == sb2) then
        BoostVal.str mv.name
      else nsb1
    (sb2, nsb2)
  else (sb1, nsb1)

/-- `SPEED_BOOST_ABILITIES.has(ability) || (item && SPEED_BOOST_ITEMS.has(item.id))`:
the fixed speed-boosting ability/item override of `checkBatonPass`. -/
def sbOverride (env : Env) (set : PokemonSet) (format : Format) : Bool :=
  SPEED_BOOST_ABILITIES.contains (env.toID set.ability)
    || (match env.itemsGet set.item format.gen with
        | some i => SPEED_BOOST_ITEMS.contains i.id
        | none => false)

/-- The fixed non-speed-boosting ability/item override of
`checkBatonPass`. -/
def nsbOverride (env : Env) (set : PokemonSet) (format : Format) : Bool :=
  NON_SPEED_BOOST_ABILITIES.contains (env.toID set.ability)
    || (match env.itemsGet set.item format.gen with
        | some i => NON_SPEED_BOOST_ITEMS.contains i.id
        | none => false)

/-- The `(speedBoosted, nonSpeedBoosted)` pair at the return point of
`checkBatonPass`: the loop over the move table's values followed by the
fixed ability/item overrides (which force `true`).  The overrides do not
read the other variable, so computing both before the short-circuit returns
is equivalent to the source's order. -/
def bpAttributions (env : Env) (set : PokemonSet) (format : Format) (moves : MoveTable) :
    BoostVal × BoostVal :=
  let item := env.itemsGet set.item format.gen
  let st := (moves.map Prod.snd).foldl (bpStep item) (BoostVal.bool false, BoostVal.bool false)
  let sb := if sbOverride env set format then BoostVal.bool true else st.1
  let nsb := if nsbOverride env set format then BoostVal.bool true else st.2
  (sb, nsb)

/-- The claim's "has at least one speed-boost source": some table move is a
Speed booster ordinarily or through a matching Z-crystal, or the fixed
ability/item override applies.  This is the claim-side characterization
that C1 compares with the computed attribution. -/
def specHasSpeedSource (env : Env) (set : PokemonSet) (format : Format) (moves : MoveTable) :
    Bool :=
  (moves.map Prod.snd).any
      (fun mv => moveSpeedBoost mv || zSpeedBoost (env.itemsGet set.item format.gen) mv)
    || sbOverride env set format

/-- The claim's "has at least one non-speed-boost source". -/
def specHasNonSpeedSource (env : Env) (set : PokemonSet) (format : Format) (moves : MoveTable) :
    Bool :=
  (moves.map Prod.snd).any
      (fun mv => moveNonSpeedBoost mv || zNonSpeedBoost (env.itemsGet set.item format.gen) mv)
    || nsbOverride env set format

/-- `checkBatonPass` of `src/sets.ts`: not banned when either attribution is
falsy; otherwise banned unless both attributions are strings referring to
distinct moves. -/
def checkBatonPass (env : Env) (set : PokemonSet) (format : Format) (moves : MoveTable) : Bool :=
  let r := bpAttributions env set format moves
  if !r.1.truthy then false
  else if !r.2.truthy then false
  else !((r.1 != r.2) && r.1.isStr && r.2.isStr)

/-- The whole moves section of `Sets.validate`: at least one move, at most
four, the per-move loop, the generation-2 sleep+trap check, and the Baton
Pass clause check (when the clause is active and the table has Baton
Pass). -/
def movesProblems (env : Env) (rules : RuleSet) (set : PokemonSet) (format : Format)
    (pokemon : String) : List Problem :=
  if set.moves.length ≠ 0 then
    (if 4 < set.moves.length then [Problem.tooManyMoves pokemon] else [])
    ++ (moveLoop env rules format pokemon [] set.moves).1
    ++ (if format.gen = 2 then
          if checkSleepTrap (moveLoop env rules format pokemon [] set.moves).2 then
            [Problem.sleepTrap pokemon format.gen]
          else []
        else [])
    ++ (if rules.clauses.contains "Baton Pass"
          && (tableGet (moveLoop env rules format pokemon [] set.moves).2 "batonpass").isSome then
          if checkBatonPass env set format (moveLoop env rules format pokemon [] set.moves).2 then
            [Problem.batonPassClause pokemon]
          else []
        else [])
  else [Problem.noMoves pokemon]

/-- The generation-2 expected gender, from the Atk DV and the species'
female ratio: threshold `F * 16`, corrected `4 -> 5` and `8 -> 7` (two
sequential tests in the source; after the first, a threshold of `4` has
become `5`, so they never both fire), Atk DV at or above the threshold
meaning male. -/
def expectedGenderGen2 (env : Env) (species : Species) (set : PokemonSet) : String :=
  let atkDV := env.itod set.ivs.atk
  let t1 : Rat := species.genderRatio.F * 16
  let t2 : Rat := if t1 = 4 then 5 else t1
  let t3 : Rat := if t2 = 8 then 7 else t2
  if t3 ≤ (atkDV : Rat) then "M" else "F"

/-- The gender section of `Sets.validate`: when a gender is declared, it is
compared against the species' `gender` field (an undefined field mismatches
any declared gender), and in generation 2 additionally against the Atk
DV-derived gender. -/
def genderProblems (env : Env) (species : Species) (set : PokemonSet) (format : Format)
    (pokemon : String) : List Problem :=
  if set.gender ≠ "" then
    (if species.gender ≠ some set.gender then
      [Problem.wrongGender pokemon set.gender species.gender]
     else [])
    ++ (if format.gen = 2 then
          if set.gender ≠ expectedGenderGen2 env species set then
            [Problem.genderDVMismatch pokemon set.gender (env.itod set.ivs.atk)
              (expectedGenderGen2 env species set)]
          else []
        else [])
  else []

/-- The EV section of `Sets.validate`: before generation 3, SpA and SpD EVs
must match. -/
def evProblems (set : PokemonSet) (format : Format) (pokemon : String) : List Problem :=
  if format.gen < 3 ∧ set.evs.spa ≠ set.evs.spd then
    [Problem.evParity pokemon set.evs.spa set.evs.spd]
  else []

/-- `isLegendary` of `src/sets.ts`. -/
def isLegendary (s : Species) (shiny : Bool) : Bool :=
  (s.eggGroups.head? == some "Undiscovered" || s.name == "Manaphy")
    && !strOptTruthy s.prevo && !s.nfe && s.name != "Unown"
    && s.baseSpecies != "Pikachu" && (s.baseSpecies != "Diancie" || !shiny)

/-- The number of stats of the IV table at 31 or above (the `for (stat in
set.ivs)` loop). -/
def perfectIVs (ivs : StatsTable) : Nat :=
  List.countP (fun v => decide (31 ≤ v)) [ivs.hp, ivs.atk, ivs.df, ivs.spa, ivs.spd, ivs.spe]

/-- The generation-2 expected shininess, from the DV table: Def, Spe and SpA
DVs equal to 10 and Atk DV mod 4 at least 2 (`!!(...)` in the source). -/
def expectedShinyGen2 (dvs : StatsTable) : Bool :=
  dvs.df == 10 && dvs.spe == 10 && dvs.spa == 10 && decide (2 ≤ dvs.atk % 4)

/-- The IV section of `Sets.validate`: the generation >= 6 legendary IV
floor; before generation 3 the SpA/SpD IV parity; in generation 2
additionally the HP DV consistency and the DV-derived shininess
(`(expectedShiny && !set.shiny) || (!expectedShiny && set.shiny)` is
boolean inequality). -/
def ivProblems (env : Env) (species : Species) (set : PokemonSet) (format : Format)
    (pokemon : String) : List Problem :=
  if 6 ≤ format.gen then
    if isLegendary species set.shiny then
      if perfectIVs set.ivs < 3 then [Problem.legendaryIVFloor pokemon format.gen] else []
    else []
  else if format.gen < 3 then
    (if set.ivs.spa ≠ set.ivs.spd then
      [Problem.ivParity pokemon set.ivs.spa set.ivs.spd]
     else [])
    ++ (if format.gen = 2 then
          (if (env.istods set.ivs).hp ≠ env.getHPDV set.ivs then
            [Problem.hpDVMismatch pokemon (env.istods set.ivs).hp (env.getHPDV set.ivs)]
           else [])
          ++ (if expectedShinyGen2 (env.istods set.ivs) != set.shiny then
                [Problem.shinyMismatch pokemon set.shiny]
              else [])
        else [])
  else []

/-- The nature section of `Sets.validate`. -/
def natureProblems (env : Env) (set : PokemonSet) (format : Format) (pokemon : String) :
    List Problem :=
  if set.nature ≠ "" then
    match env.naturesGet set.nature with
    | some nature =>
      if format.gen < 3 then [Problem.natureGen12 pokemon format.gen nature.name] else []
    | none =>
      if 3 ≤ format.gen then [Problem.invalidNature set.nature format.gen] else []
  else
    if 3 ≤ format.gen then [Problem.natureRequired pokemon format.gen] else []

/-- The ability section of `Sets.validate`.  Note that the source resolves
the ability string with `pkmn.Items.get` — the item table — not an ability
table; this translation keeps that lookup (`env.itemsGet`). -/
def abilityProblems (env : Env) (rules : RuleSet) (set : PokemonSet) (format : Format)
    (pokemon : String) : List Problem :=
  if 3 ≤ format.gen then
    match env.itemsGet set.ability format.gen with
    | none => [Problem.invalidAbility set.ability format.gen]
    | some ability =>
      (if rules.clauses.contains "Evasion Abilities"
          && (ability.name == "Sand Veil" || ability.name == "Snow Cloak") then
        [Problem.evasionAbilitiesClause ability.name]
       else [])
      ++ (if rules.clauses.contains "Moody" && ability.name == "Moody" then
            [Problem.moodyClause ability.name]
          else [])
  else
    if set.ability ≠ "" then [Problem.abilitiesDoNotExist pokemon format.gen set.ability] else []

/-- The item section of `Sets.validate`. -/
def itemProblems (env : Env) (species : Species) (set : PokemonSet) (format : Format)
    (pokemon : String) : List Problem :=
  if 2 ≤ format.gen then
    (if set.item ≠ "" ∧ env.itemsGet set.item format.gen = none then
      [Problem.invalidItem set.item format.gen]
     else [])
    ++ (match env.itemsGet set.item format.gen with
        | some i => if i.id == "griseousorb" && species.num != 487 then [Problem.griseousOrb] else []
        | none => [])
  else
    if set.item ≠ "" then [Problem.itemsDoNotExist pokemon format.gen set.item] else []

/-- `Sets.validate` of `src/sets.ts`: resolve the format's rule set and the
species (each failure returns a single-element problem list), then run all
the sections in source order, accumulating their problems. -/
def validate (env : Env) (set : PokemonSet) (format : Format) : List Problem :=
  match env.rulesGet format with
  | none => [Problem.invalidFormat format.id]
  | some rules =>
    match env.speciesGet set.species format.gen with
    | none => [Problem.invalidSpecies set.species format.gen]
    | some species =>
      let pokemon := pokemonName set
      tierProblems species pokemon
        ++ levelProblems env rules species set pokemon
        ++ movesProblems env rules set format pokemon
        ++ genderProblems env species set format pokemon
        ++ evProblems set format pokemon
        ++ ivProblems env species set format pokemon
        ++ natureProblems env set format pokemon
        ++ abilityProblems env rules set format pokemon
        ++ itemProblems env species set format pokemon

/-! Concrete data used by the witnesses: a minimal environment and set. -/

/-- An all-zero stats table. -/
def zeroStats : StatsTable := ⟨0, 0, 0, 0, 0, 0⟩

/-- A minimal species record used by concrete environments. -/
def plainSpecies : Species :=
  ⟨"Pikachu", "Pikachu", "Normal", 1, 25, none, ⟨1, 0⟩, none, none, ["Field"]⟩

/-- A minimal set: species only. -/
def plainSet : PokemonSet :=
  ⟨"", "Pikachu", "", "", [], "", "", zeroStats, zeroStats, none, false⟩

/-- An environment that resolves nothing. -/
def envNoFormat : Env where
  rulesGet := fun _ => none
  isLittleCup := fun _ => false
  speciesGet := fun _ _ => none
  movesGet := fun _ _ => none
  itemsGet := fun _ _ => none
  naturesGet := fun _ => none
  abilitiesGet := fun _ _ => none
  toID := fun s => s
  itod := fun n => n / 2
  istods := fun s => s
  getHPDV := fun _ => 0

/-- An environment that resolves every format (to an empty rule set) but no
species. -/
def envNoSpecies : Env :=
  { envNoFormat with rulesGet := fun _ => some ⟨[]⟩ }

/-- An environment resolving every format and species, with a Little-Cup
classifier that accepts everything. -/
def envLC : Env :=
  { envNoFormat with
      rulesGet := fun _ => some ⟨[]⟩
      speciesGet := fun _ _ => some plainSpecies
      isLittleCup := fun _ => true }

/-- A generation-6 Diancie: Undiscovered egg group, no evolution family
(matching the specification's example for the legendary predicate). -/
def diancie : Species :=
  ⟨"Diancie", "Diancie", "Normal", 6, 719, none, ⟨0, 0⟩, none, none, ["Undiscovered"]⟩

/-- A concrete Spore. -/
def spore : Move := ⟨"spore", "Spore", "Grass", false, none, none⟩

/-- A concrete Mean Look. -/
def meanLook : Move := ⟨"meanlook", "Mean Look", "Normal", false, none, none⟩

/-- An environment that resolves formats, species, and exactly the moves
Spore and Mean Look. -/
def envSleepTrap : Env :=
  { envNoFormat with
      rulesGet := fun _ => some ⟨[]⟩
      speciesGet := fun _ _ => some plainSpecies
      movesGet := fun m _ =>
        if m == "Spore" then some spore
        else if m == "Mean Look" then some meanLook
        else none }

/-- The moves of a set that resolve, in order (`pkmn.Moves.get` on each
entry, skipping unresolvable ones) — the claims' "resolved moves". -/
def resolvedMoves (env : Env) (format : Format) (ms : List String) : List Move :=
  ms.filterMap (fun m => env.movesGet m format.gen)

/-- The ids of the resolved moves, in order (with repetitions). -/
def resolvedIds (env : Env) (format : Format) (ms : List String) : List String :=
  (resolvedMoves env format ms).map Move.id

/-- An environment resolving every format and every species to `diancie`. -/
def envDiancie : Env :=
  { envNoFormat with
      rulesGet := fun _ => some ⟨[]⟩
      speciesGet := fun _ _ => some diancie }

/-- The HP DV computed from the least-significant bits of the Atk, Def, Spe
and Spc (SpA) DVs.  This is the claim's description of the external
`pkmn.Stats.getHPDV` helper; theorems about the generation-2 HP DV check
take the hypothesis that the environment's helper computes it. -/
def specHPDVFromLSBs (dvs : StatsTable) : Nat :=
  (dvs.atk % 2) * 8 + (dvs.df % 2) * 4 + (dvs.spe % 2) * 2 + dvs.spa % 2

/-- An environment resolving formats and species whose DV helpers are the
identity conversion together with the least-significant-bit HP DV. -/
def envGen2 : Env :=
  { envNoFormat with
      rulesGet := fun _ => some ⟨[]⟩
      speciesGet := fun _ _ => some plainSpecies
      getHPDV := fun ivs => specHPDVFromLSBs ivs }

/-- A male-only Nidoran (fixed gender `M`). -/
def nidoranM : Species :=
  ⟨"Nidoran-M", "Nidoran-M", "Normal", 1, 32, some "M", ⟨1, 0⟩, none, some ["Nidorino"],
   ["Field"]⟩

/-- An environment resolving every species to the male-only Nidoran. -/
def envGender : Env :=
  { envNoFormat with
      rulesGet := fun _ => some ⟨[]⟩
      speciesGet := fun _ _ => some nidoranM }

/-- An environment whose item table knows Leftovers and whose ability table
knows Intimidate (and nothing else). -/
def envAbility : Env :=
  { envNoFormat with
      rulesGet := fun _ => some ⟨[]⟩
      speciesGet := fun _ _ => some plainSpecies
      itemsGet := fun s _ =>
        if s == "Leftovers" then some ⟨"leftovers", "Leftovers", false, ""⟩ else none
      abilitiesGet := fun s _ =>
        if s == "Intimidate" then some ⟨"intimidate", "Intimidate"⟩ else none }

/-- A concrete Baton Pass. -/
def batonPassMove : Move := ⟨"batonpass", "Baton Pass", "Normal", false, none, none⟩

end Datax

namespace Datax

/-! Helper lemmas: which constructors each validation section can emit. -/

lemma any_kindIs_false {l : List Problem} {ks : List Nat}
    (hl : ∀ p ∈ l, p.kind ∈ ks) {k : Nat} (hk : k ∉ ks) :
    l.any (kindIs k) = false := by
  rw [List.any_eq_false]
  intro p hp
  simp only [kindIs, beq_iff_eq]
  intro h
  exact hk (h ▸ hl p hp)

lemma countP_kindIs_zero {l : List Problem} {ks : List Nat}
    (hl : ∀ p ∈ l, p.kind ∈ ks) {k : Nat} (hk : k ∉ ks) :
    l.countP (kindIs k) = 0 := by
  rw [List.countP_eq_zero]
  intro p hp
  simp only [kindIs, beq_iff_eq]
  intro h
  exact hk (h ▸ hl p hp)

lemma kind_of_mem_ite_singleton {c : Prop} [Decidable c] {x p : Problem}
    (h : p ∈ if c then [x] else []) : p = x := by
  split at h
  · exact List.mem_singleton.mp h
  · exact absurd h (List.not_mem_nil p)

lemma mem_ite_nil_elim {c : Prop} [Decidable c] {l : List Problem} {p : Problem}
    (h : p ∈ if c then l else []) : p ∈ l := by
  split at h
  · exact h
  · exact absurd h (List.not_mem_nil p)

lemma tierProblems_kinds (species : Species) (pokemon : String) :
    ∀ p ∈ tierProblems species pokemon, p.kind ∈ [2, 3] := by
  intro p hp
  unfold tierProblems at hp
  split_ifs at hp
  · obtain rfl := List.mem_singleton.mp hp; simp [Problem.kind]
  · obtain rfl := List.mem_singleton.mp hp; simp [Problem.kind]
  · exact absurd hp (List.not_mem_nil p)

lemma levelProblems_kinds (env : Env) (rules : RuleSet) (species : Species) (set : PokemonSet)
    (pokemon : String) :
    ∀ p ∈ levelProblems env rules species set pokemon, p.kind ∈ [4, 5, 6, 7] := by
  intro p hp
  unfold levelProblems at hp
  by_cases hlc : env.isLittleCup rules = true
  · rw [if_pos hlc] at hp
    rcases List.mem_append.mp hp with h | h
    · split_ifs at h
      · obtain rfl := List.mem_singleton.mp h; simp [Problem.kind]
      · obtain rfl := List.mem_singleton.mp h; simp [Problem.kind]
      · exact absurd h (List.not_mem_nil p)
    · obtain rfl := kind_of_mem_ite_singleton h; simp [Problem.kind]
  · rw [if_neg hlc] at hp
    obtain rfl := kind_of_mem_ite_singleton hp; simp [Problem.kind]

lemma moveLoop_kinds (env : Env) (rules : RuleSet) (format : Format) (pokemon : String) :
    ∀ (ms : List String) (table : MoveTable),
      ∀ p ∈ (moveLoop env rules format pokemon table ms).1, p.kind ∈ [9, 10, 11, 12, 13] := by
  intro ms
  induction ms with
  | nil => intro table p hp; simp [moveLoop] at hp
  | cons m ms ih =>
    intro table p hp
    unfold moveLoop at hp
    cases hmv : env.movesGet m format.gen with
    | none =>
      simp only [hmv] at hp
      rcases List.mem_cons.mp hp with h | h
      · subst h; simp [Problem.kind]
      · exact ih table p h
    | some move =>
      simp only [hmv] at hp
      rcases List.mem_append.mp hp with h | h
      · rcases List.mem_append.mp h with h | h
        · obtain rfl := kind_of_mem_ite_singleton h; simp [Problem.kind]
        · unfold clauseChecks at h
          split_ifs at h
          · obtain rfl := List.mem_singleton.mp h; simp [Problem.kind]
          · obtain rfl := List.mem_singleton.mp h; simp [Problem.kind]
          · obtain rfl := List.mem_singleton.mp h; simp [Problem.kind]
          · exact absurd h (List.not_mem_nil p)
      · exact ih _ p h

lemma movesProblems_kinds (env : Env) (rules : RuleSet) (set : PokemonSet) (format : Format)
    (pokemon : String) :
    ∀ p ∈ movesProblems env rules set format pokemon,
      p.kind ∈ [8, 9, 10, 11, 12, 13, 14, 15, 16] := by
  intro p hp
  unfold movesProblems at hp
  by_cases hm : set.moves.length ≠ 0
  · rw [if_pos hm] at hp
    rcases List.mem_append.mp hp with h | h
    · rcases List.mem_append.mp h with h | h
      · rcases List.mem_append.mp h with h | h
        · obtain rfl := kind_of_mem_ite_singleton h; simp [Problem.kind]
        · have := moveLoop_kinds env rules format pokemon set.moves [] p h
          simp only [List.mem_cons, List.not_mem_nil, or_false] at this ⊢
          tauto
      · obtain rfl := kind_of_mem_ite_singleton (mem_ite_nil_elim h); simp [Problem.kind]
    · obtain rfl := kind_of_mem_ite_singleton (mem_ite_nil_elim h); simp [Problem.kind]
  · rw [if_neg hm] at hp
    obtain rfl := List.mem_singleton.mp hp; simp [Problem.kind]

lemma genderProblems_kinds (env : Env) (species : Species) (set : PokemonSet) (format : Format)
    (pokemon : String) :
    ∀ p ∈ genderProblems env species set format pokemon, p.kind ∈ [17, 18] := by
  intro p hp
  unfold genderProblems at hp
  by_cases hg : set.gender ≠ ""
  · rw [if_pos hg] at hp
    rcases List.mem_append.mp hp with h | h
    · obtain rfl := kind_of_mem_ite_singleton h; simp [Problem.kind]
    · obtain rfl := kind_of_mem_ite_singleton (mem_ite_nil_elim h); simp [Problem.kind]
  · rw [if_neg hg] at hp
    exact absurd hp (List.not_mem_nil p)

lemma evProblems_kinds (set : PokemonSet) (format : Format) (pokemon : String) :
    ∀ p ∈ evProblems set format pokemon, p.kind ∈ [19] := by
  intro p hp
  unfold evProblems at hp
  obtain rfl := kind_of_mem_ite_singleton hp; simp [Problem.kind]

lemma ivProblems_kinds (env : Env) (species : Species) (set : PokemonSet) (format : Format)
    (pokemon : String) :
    ∀ p ∈ ivProblems env species set format pokemon, p.kind ∈ [20, 21, 22, 23] := by
  intro p hp
  unfold ivProblems at hp
  by_cases h6 : 6 ≤ format.gen
  · rw [if_pos h6] at hp
    obtain rfl := kind_of_mem_ite_singleton (mem_ite_nil_elim hp); simp [Problem.kind]
  · rw [if_neg h6] at hp
    by_cases h3 : format.gen < 3
    · rw [if_pos h3] at hp
      rcases List.mem_append.mp hp with h | h
      · obtain rfl := kind_of_mem_ite_singleton h; simp [Problem.kind]
      · rcases List.mem_append.mp (mem_ite_nil_elim h) with h | h
        · obtain rfl := kind_of_mem_ite_singleton h; simp [Problem.kind]
        · obtain rfl := kind_of_mem_ite_singleton h; simp [Problem.kind]
    · rw [if_neg h3] at hp
      exact absurd hp (List.not_mem_nil p)

lemma natureProblems_kinds (env : Env) (set : PokemonSet) (format : Format) (pokemon : String) :
    ∀ p ∈ natureProblems env set format pokemon, p.kind ∈ [24, 25, 26] := by
  intro p hp
  unfold natureProblems at hp
  by_cases hn : set.nature ≠ ""
  · rw [if_pos hn] at hp
    rcases he : env.naturesGet set.nature with _ | n <;> simp only [he] at hp
    · obtain rfl := kind_of_mem_ite_singleton hp; simp [Problem.kind]
    · obtain rfl := kind_of_mem_ite_singleton hp; simp [Problem.kind]
  · rw [if_neg hn] at hp
    obtain rfl := kind_of_mem_ite_singleton hp; simp [Problem.kind]

lemma abilityProblems_kinds (env : Env) (rules : RuleSet) (set : PokemonSet) (format : Format)
    (pokemon : String) :
    ∀ p ∈ abilityProblems env rules set format pokemon, p.kind ∈ [27, 28, 29, 30] := by
  intro p hp
  unfold abilityProblems at hp
  by_cases h3 : 3 ≤ format.gen
  · rw [if_pos h3] at hp
    rcases ha : env.itemsGet set.ability format.gen with _ | a <;> simp only [ha] at hp
    · obtain rfl := List.mem_singleton.mp hp; simp [Problem.kind]
    · rcases List.mem_append.mp hp with h | h
      · obtain rfl := kind_of_mem_ite_singleton h; simp [Problem.kind]
      · obtain rfl := kind_of_mem_ite_singleton h; simp [Problem.kind]
  · rw [if_neg h3] at hp
    obtain rfl := kind_of_mem_ite_singleton hp; simp [Problem.kind]

lemma itemProblems_kinds (env : Env) (species : Species) (set : PokemonSet) (format : Format)
    (pokemon : String) :
    ∀ p ∈ itemProblems env species set format pokemon, p.kind ∈ [31, 32, 33] := by
  intro p hp
  unfold itemProblems at hp
  by_cases h2 : 2 ≤ format.gen
  · rw [if_pos h2] at hp
    rcases List.mem_append.mp hp with h | h
    · obtain rfl := kind_of_mem_ite_singleton h; simp [Problem.kind]
    · rcases hi : env.itemsGet set.item format.gen with _ | i <;> simp only [hi] at h
      · exact absurd h (List.not_mem_nil p)
      · obtain rfl := kind_of_mem_ite_singleton h; simp [Problem.kind]
  · rw [if_neg h2] at hp
    obtain rfl := kind_of_mem_ite_singleton hp; simp [Problem.kind]

/-- When both the rule set and the species resolve, `validate` is exactly
the concatenation of its nine sections, in source order. -/
lemma validate_resolved {env : Env} {set : PokemonSet} {format : Format} {rules : RuleSet}
    {species : Species}
    (h1 : env.rulesGet format = some rules)
    (h2 : env.speciesGet set.species format.gen = some species) :
    validate env set format =
      tierProblems species (pokemonName set)
        ++ levelProblems env rules species set (pokemonName set)
        ++ movesProblems env rules set format (pokemonName set)
        ++ genderProblems env species set format (pokemonName set)
        ++ evProblems set format (pokemonName set)
        ++ ivProblems env species set format (pokemonName set)
        ++ natureProblems env set format (pokemonName set)
        ++ abilityProblems env rules set format (pokemonName set)
        ++ itemProblems env species set format (pokemonName set) := by
  unfold validate
  rw [h1, h2]

/-- C9: `validate` is deterministic and idempotent: two calls with the same
set, format and (immutable) data providers produce identical problem lists.
The translation of `Sets.validate` is a pure function of `(env, set,
format)` — the source writes only to its local `problems` array and never to
the set — so the two calls are definitionally the same list. -/
theorem C9_validate_deterministic (env : Env) (set : PokemonSet) (format : Format) :
    validate env set format = validate env set format := rfl

/-- C2: an unresolvable format returns exactly the single-element list
naming the format; a resolvable format with an unresolvable species returns
exactly the single-element list naming the species and generation; and when
both resolve, the result is the concatenation of all nine check sections
(so no per-check failure aborts a sibling check). -/
theorem C2_early_return (env : Env) (set : PokemonSet) (format : Format) :
    (env.rulesGet format = none →
      validate env set format = [Problem.invalidFormat format.id]) ∧
    (∀ rules, env.rulesGet format = some rules →
      env.speciesGet set.species format.gen = none →
      validate env set format = [Problem.invalidSpecies set.species format.gen]) ∧
    (∀ rules species, env.rulesGet format = some rules →
      env.speciesGet set.species format.gen = some species →
      validate env set format =
        tierProblems species (pokemonName set)
          ++ levelProblems env rules species set (pokemonName set)
          ++ movesProblems env rules set format (pokemonName set)
          ++ genderProblems env species set format (pokemonName set)
          ++ evProblems set format (pokemonName set)
          ++ ivProblems env species set format (pokemonName set)
          ++ natureProblems env set format (pokemonName set)
          ++ abilityProblems env rules set format (pokemonName set)
          ++ itemProblems env species set format (pokemonName set)) := by
  refine ⟨?_, ?_, ?_⟩
  · intro h
    unfold validate
    rw [h]
  · intro rules h1 h2
    unfold validate
    rw [h1, h2]
  · intro rules species h1 h2
    exact validate_resolved h1 h2

/-- Witness for C2: with concrete environments, an unresolvable format and
the specification's "Missingno" example each give exactly their one
problem. -/
theorem C2_early_return_witness :
    validate envNoFormat plainSet ⟨"gen7ou", 7⟩ = [Problem.invalidFormat "gen7ou"] ∧
    validate envNoSpecies
        { plainSet with species := "Missingno" } ⟨"gen7ou", 7⟩
      = [Problem.invalidSpecies "Missingno" 7] :=
  ⟨(C2_early_return envNoFormat plainSet ⟨"gen7ou", 7⟩).1 rfl,
   (C2_early_return envNoSpecies { plainSet with species := "Missingno" } ⟨"gen7ou", 7⟩).2.1
     ⟨[]⟩ rfl rfl⟩

/-- A problem whose kind is outside a list's possible kinds is not in the
list. -/
lemma not_mem_of_kinds {l : List Problem} {ks : List Nat}
    (hl : ∀ p ∈ l, p.kind ∈ ks) {x : Problem} (hk : x.kind ∉ ks) : x ∉ l :=
  fun h => hk (hl x h)

/-- The Little-Cup level problem appears in the level section exactly when
the ruleset is Little Cup and the (defaulted) level exceeds 5. -/
lemma lcLevel_mem_levelProblems (env : Env) (rules : RuleSet) (species : Species)
    (set : PokemonSet) (pokemon : String) :
    Problem.lcLevel pokemon ∈ levelProblems env rules species set pokemon ↔
      env.isLittleCup rules = true ∧ 5 < set.level.getD 0 := by
  unfold levelProblems
  split_ifs <;> simp_all

/-- The level-100 problem appears in the level section exactly when the
ruleset is not Little Cup and the (defaulted) level exceeds 100. -/
lemma overLevel100_mem_levelProblems (env : Env) (rules : RuleSet) (species : Species)
    (set : PokemonSet) (pokemon : String) :
    Problem.overLevel100 pokemon ∈ levelProblems env rules species set pokemon ↔
      env.isLittleCup rules = false ∧ 100 < set.level.getD 0 := by
  unfold levelProblems
  split_ifs with h <;> simp_all

/-- The Little-Cup level problem appears in a resolved validation exactly
when the ruleset is Little Cup and the (defaulted) level exceeds 5. -/
lemma lcLevel_mem_validate {env : Env} {set : PokemonSet} {format : Format} {rules : RuleSet}
    {species : Species}
    (h1 : env.rulesGet format = some rules)
    (h2 : env.speciesGet set.species format.gen = some species) :
    Problem.lcLevel (pokemonName set) ∈ validate env set format ↔
      env.isLittleCup rules = true ∧ 5 < set.level.getD 0 := by
  have t1 : Problem.lcLevel (pokemonName set) ∉ tierProblems species (pokemonName set) :=
    not_mem_of_kinds (tierProblems_kinds _ _) (by simp [Problem.kind])
  have t3 : Problem.lcLevel (pokemonName set) ∉
      movesProblems env rules set format (pokemonName set) :=
    not_mem_of_kinds (movesProblems_kinds _ _ _ _ _) (by simp [Problem.kind])
  have t4 : Problem.lcLevel (pokemonName set) ∉
      genderProblems env species set format (pokemonName set) :=
    not_mem_of_kinds (genderProblems_kinds _ _ _ _ _) (by simp [Problem.kind])
  have t5 : Problem.lcLevel (pokemonName set) ∉ evProblems set format (pokemonName set) :=
    not_mem_of_kinds (evProblems_kinds _ _ _) (by simp [Problem.kind])
  have t6 : Problem.lcLevel (pokemonName set) ∉
      ivProblems env species set format (pokemonName set) :=
    not_mem_of_kinds (ivProblems_kinds _ _ _ _ _) (by simp [Problem.kind])
  have t7 : Problem.lcLevel (pokemonName set) ∉ natureProblems env set format (pokemonName set) :=
    not_mem_of_kinds (natureProblems_kinds _ _ _ _) (by simp [Problem.kind])
  have t8 : Problem.lcLevel (pokemonName set) ∉
      abilityProblems env rules set format (pokemonName set) :=
    not_mem_of_kinds (abilityProblems_kinds _ _ _ _ _) (by simp [Problem.kind])
  have t9 : Problem.lcLevel (pokemonName set) ∉
      itemProblems env species set format (pokemonName set) :=
    not_mem_of_kinds (itemProblems_kinds _ _ _ _ _) (by simp [Problem.kind])
  rw [validate_resolved h1 h2]
  simp only [List.mem_append, t1, t3, t4, t5, t6, t7, t8, t9, or_false, false_or]
  exact lcLevel_mem_levelProblems env rules species set (pokemonName set)

/-- The level-100 problem appears in a resolved validation exactly when the
ruleset is not Little Cup and the (defaulted) level exceeds 100. -/
lemma overLevel100_mem_validate {env : Env} {set : PokemonSet} {format : Format} {rules : RuleSet}
    {species : Species}
    (h1 : env.rulesGet format = some rules)
    (h2 : env.speciesGet set.species format.gen = some species) :
    Problem.overLevel100 (pokemonName set) ∈ validate env set format ↔
      env.isLittleCup rules = false ∧ 100 < set.level.getD 0 := by
  have t1 : Problem.overLevel100 (pokemonName set) ∉ tierProblems species (pokemonName set) :=
    not_mem_of_kinds (tierProblems_kinds _ _) (by simp [Problem.kind])
  have t3 : Problem.overLevel100 (pokemonName set) ∉
      movesProblems env rules set format (pokemonName set) :=
    not_mem_of_kinds (movesProblems_kinds _ _ _ _ _) (by simp [Problem.kind])
  have t4 : Problem.overLevel100 (pokemonName set) ∉
      genderProblems env species set format (pokemonName set) :=
    not_mem_of_kinds (genderProblems_kinds _ _ _ _ _) (by simp [Problem.kind])
  have t5 : Problem.overLevel100 (pokemonName set) ∉ evProblems set format (pokemonName set) :=
    not_mem_of_kinds (evProblems_kinds _ _ _) (by simp [Problem.kind])
  have t6 : Problem.overLevel100 (pokemonName set) ∉
      ivProblems env species set format (pokemonName set) :=
    not_mem_of_kinds (ivProblems_kinds _ _ _ _ _) (by simp [Problem.kind])
  have t7 : Problem.overLevel100 (pokemonName set) ∉
      natureProblems env set format (pokemonName set) :=
    not_mem_of_kinds (natureProblems_kinds _ _ _ _) (by simp [Problem.kind])
  have t8 : Problem.overLevel100 (pokemonName set) ∉
      abilityProblems env rules set format (pokemonName set) :=
    not_mem_of_kinds (abilityProblems_kinds _ _ _ _ _) (by simp [Problem.kind])
  have t9 : Problem.overLevel100 (pokemonName set) ∉
      itemProblems env species set format (pokemonName set) :=
    not_mem_of_kinds (itemProblems_kinds _ _ _ _ _) (by simp [Problem.kind])
  rw [validate_resolved h1 h2]
  simp only [List.mem_append, t1, t3, t4, t5, t6, t7, t8, t9, or_false, false_or]
  exact overLevel100_mem_levelProblems env rules species set (pokemonName set)

/-- C10: with an absent or zero level no level problem is ever produced, in
any format; and (when format and species resolve) the Little-Cup problem
appears exactly for a declared level above 5 under a Little-Cup ruleset, and
the level-100 problem exactly for a declared level above 100 under any other
ruleset.  (`Problem.lcLevel`/`Problem.overLevel100` are the two level
problems of the source; `set.level.getD 0` is the source's
`set.level && set.level > n` test.) -/
theorem C10_level (env : Env) (set : PokemonSet) (format : Format) :
    (set.level = none ∨ set.level = some 0 →
      Problem.lcLevel (pokemonName set) ∉ validate env set format ∧
      Problem.overLevel100 (pokemonName set) ∉ validate env set format) ∧
    (∀ rules species, env.rulesGet format = some rules →
      env.speciesGet set.species format.gen = some species →
      (Problem.lcLevel (pokemonName set) ∈ validate env set format ↔
        env.isLittleCup rules = true ∧ 5 < set.level.getD 0) ∧
      (Problem.overLevel100 (pokemonName set) ∈ validate env set format ↔
        env.isLittleCup rules = false ∧ 100 < set.level.getD 0)) := by
  constructor
  · intro hlv
    have hgd : set.level.getD 0 = 0 := by rcases hlv with h | h <;> simp [h]
    rcases hr : env.rulesGet format with _ | rules
    · constructor <;> (unfold validate; rw [hr]; simp)
    · rcases hs : env.speciesGet set.species format.gen with _ | species
      · constructor <;> (unfold validate; rw [hr, hs]; simp)
      · constructor
        · intro hmem
          have h := (lcLevel_mem_validate hr hs).mp hmem
          rw [hgd] at h
          omega
        · intro hmem
          have h := (overLevel100_mem_validate hr hs).mp hmem
          rw [hgd] at h
          omega
  · intro rules species h1 h2
    exact ⟨lcLevel_mem_validate h1 h2, overLevel100_mem_validate h1 h2⟩

/-- Witness for C10: a level-less set raises no level problem even in an
unresolvable format, and a level-6 set under a Little-Cup ruleset raises the
Little-Cup level problem. -/
theorem C10_level_witness :
    Problem.lcLevel "Pikachu" ∉ validate envNoFormat plainSet ⟨"gen7ou", 7⟩ ∧
    Problem.lcLevel "Pikachu" ∈
      validate envLC { plainSet with level := some 6 } ⟨"gen1lc", 1⟩ :=
  ⟨((C10_level envNoFormat plainSet ⟨"gen7ou", 7⟩).1 (Or.inl rfl)).1,
   (((C10_level envLC { plainSet with level := some 6 } ⟨"gen1lc", 1⟩).2
       ⟨[]⟩ plainSpecies rfl rfl).1).mpr ⟨rfl, by decide⟩⟩

/-- A problem of an IV-section kind is in a resolved validation exactly when
it is in the IV section. -/
lemma mem_validate_iff_iv {env : Env} {set : PokemonSet} {format : Format} {rules : RuleSet}
    {species : Species}
    (h1 : env.rulesGet format = some rules)
    (h2 : env.speciesGet set.species format.gen = some species) {x : Problem}
    (hx : x.kind ∈ ([20, 21, 22, 23] : List Nat)) :
    x ∈ validate env set format ↔ x ∈ ivProblems env species set format (pokemonName set) := by
  have hne : ∀ ks : List Nat, (∀ k ∈ ks, k ∉ ([20, 21, 22, 23] : List Nat)) → x.kind ∉ ks :=
    fun ks h hmem => h _ hmem hx
  rw [validate_resolved h1 h2]
  simp only [List.mem_append,
    not_mem_of_kinds (tierProblems_kinds species (pokemonName set)) (hne _ (by decide)),
    not_mem_of_kinds (levelProblems_kinds env rules species set (pokemonName set))
      (hne _ (by decide)),
    not_mem_of_kinds (movesProblems_kinds env rules set format (pokemonName set))
      (hne _ (by decide)),
    not_mem_of_kinds (genderProblems_kinds env species set format (pokemonName set))
      (hne _ (by decide)),
    not_mem_of_kinds (evProblems_kinds set format (pokemonName set)) (hne _ (by decide)),
    not_mem_of_kinds (natureProblems_kinds env set format (pokemonName set)) (hne _ (by decide)),
    not_mem_of_kinds (abilityProblems_kinds env rules set format (pokemonName set))
      (hne _ (by decide)),
    not_mem_of_kinds (itemProblems_kinds env species set format (pokemonName set))
      (hne _ (by decide)),
    or_false, false_or]

/-- A problem of a moves-section kind is in a resolved validation exactly
when it is in the moves section. -/
lemma mem_validate_iff_moves {env : Env} {set : PokemonSet} {format : Format} {rules : RuleSet}
    {species : Species}
    (h1 : env.rulesGet format = some rules)
    (h2 : env.speciesGet set.species format.gen = some species) {x : Problem}
    (hx : x.kind ∈ ([8, 9, 10, 11, 12, 13, 14, 15, 16] : List Nat)) :
    x ∈ validate env set format ↔
      x ∈ movesProblems env rules set format (pokemonName set) := by
  have hne : ∀ ks : List Nat,
      (∀ k ∈ ks, k ∉ ([8, 9, 10, 11, 12, 13, 14, 15, 16] : List Nat)) → x.kind ∉ ks :=
    fun ks h hmem => h _ hmem hx
  rw [validate_resolved h1 h2]
  simp only [List.mem_append,
    not_mem_of_kinds (tierProblems_kinds species (pokemonName set)) (hne _ (by decide)),
    not_mem_of_kinds (levelProblems_kinds env rules species set (pokemonName set))
      (hne _ (by decide)),
    not_mem_of_kinds (genderProblems_kinds env species set format (pokemonName set))
      (hne _ (by decide)),
    not_mem_of_kinds (evProblems_kinds set format (pokemonName set)) (hne _ (by decide)),
    not_mem_of_kinds (ivProblems_kinds env species set format (pokemonName set))
      (hne _ (by decide)),
    not_mem_of_kinds (natureProblems_kinds env set format (pokemonName set)) (hne _ (by decide)),
    not_mem_of_kinds (abilityProblems_kinds env rules set format (pokemonName set))
      (hne _ (by decide)),
    not_mem_of_kinds (itemProblems_kinds env species set format (pokemonName set))
      (hne _ (by decide)),
    or_false, false_or]

/-- A problem of a gender-section kind is in a resolved validation exactly
when it is in the gender section. -/
lemma mem_validate_iff_gender {env : Env} {set : PokemonSet} {format : Format} {rules : RuleSet}
    {species : Species}
    (h1 : env.rulesGet format = some rules)
    (h2 : env.speciesGet set.species format.gen = some species) {x : Problem}
    (hx : x.kind ∈ ([17, 18] : List Nat)) :
    x ∈ validate env set format ↔
      x ∈ genderProblems env species set format (pokemonName set) := by
  have hne : ∀ ks : List Nat, (∀ k ∈ ks, k ∉ ([17, 18] : List Nat)) → x.kind ∉ ks :=
    fun ks h hmem => h _ hmem hx
  rw [validate_resolved h1 h2]
  simp only [List.mem_append,
    not_mem_of_kinds (tierProblems_kinds species (pokemonName set)) (hne _ (by decide)),
    not_mem_of_kinds (levelProblems_kinds env rules species set (pokemonName set))
      (hne _ (by decide)),
    not_mem_of_kinds (movesProblems_kinds env rules set format (pokemonName set))
      (hne _ (by decide)),
    not_mem_of_kinds (evProblems_kinds set format (pokemonName set)) (hne _ (by decide)),
    not_mem_of_kinds (ivProblems_kinds env species set format (pokemonName set))
      (hne _ (by decide)),
    not_mem_of_kinds (natureProblems_kinds env set format (pokemonName set)) (hne _ (by decide)),
    not_mem_of_kinds (abilityProblems_kinds env rules set format (pokemonName set))
      (hne _ (by decide)),
    not_mem_of_kinds (itemProblems_kinds env species set format (pokemonName set))
      (hne _ (by decide)),
    or_false, false_or]

/-- The legendary IV-floor problem appears in the IV section exactly when
the generation is at least 6, the species passes `isLegendary`, and fewer
than three IVs are at 31 or above. -/
lemma legendaryIVFloor_mem_ivProblems (env : Env) (species : Species) (set : PokemonSet)
    (format : Format) (pokemon : String) :
    Problem.legendaryIVFloor pokemon format.gen ∈ ivProblems env species set format pokemon ↔
      6 ≤ format.gen ∧ isLegendary species set.shiny = true ∧ perfectIVs set.ivs < 3 := by
  unfold ivProblems
  split_ifs <;> simp_all

/-- C8: in a resolved validation, the legendary IV-floor problem appears
exactly when the generation is at least 6, the species passes the
`isLegendary` predicate (for the set's shininess) and fewer than three IVs
are at 31 or above; and on a concrete generation-6 Diancie (Undiscovered egg
group, no evolution family), `isLegendary` is false when shiny and true when
not. -/
theorem C8_legendary (env : Env) (set : PokemonSet) (format : Format) (rules : RuleSet)
    (species : Species)
    (h1 : env.rulesGet format = some rules)
    (h2 : env.speciesGet set.species format.gen = some species) :
    (Problem.legendaryIVFloor (pokemonName set) format.gen ∈ validate env set format ↔
      6 ≤ format.gen ∧ isLegendary species set.shiny = true ∧ perfectIVs set.ivs < 3) ∧
    isLegendary diancie true = false ∧ isLegendary diancie false = true := by
  refine ⟨?_, by decide, by decide⟩
  rw [mem_validate_iff_iv h1 h2 (by simp [Problem.kind])]
  exact legendaryIVFloor_mem_ivProblems env species set format (pokemonName set)

/-- Witness for C8: a non-shiny Diancie with all-zero IVs in generation 7
raises the legendary IV-floor problem. -/
theorem C8_legendary_witness :
    Problem.legendaryIVFloor "Diancie" 7 ∈
      validate envDiancie { plainSet with species := "Diancie" } ⟨"gen7ou", 7⟩ :=
  ((C8_legendary envDiancie { plainSet with species := "Diancie" } ⟨"gen7ou", 7⟩ ⟨[]⟩ diancie
      rfl rfl).1).mpr ⟨by decide, rfl, by decide⟩

/-- A sleep move is never also a trapping move (the two fixed lists are
disjoint). -/
lemma sleep_not_trap (s : String) (hs : SLEEP_MOVES.contains s = true) :
    TRAP_MOVES.contains s = false := by
  have hmem : s ∈ SLEEP_MOVES := by simpa using hs
  fin_cases hmem <;> decide

/-- The loop of `checkSleepTrap` computes, for each flag, "initial value or
some table entry is in the fixed list". -/
lemma checkSleepTrap_fold : ∀ (l : MoveTable) (st : Bool × Bool),
    l.foldl (fun (st : Bool × Bool) kv =>
      if SLEEP_MOVES.contains kv.2.id then (true, st.2)
      else if TRAP_MOVES.contains kv.2.id then (st.1, true)
      else st) st
    = (st.1 || l.any (fun kv => SLEEP_MOVES.contains kv.2.id),
       st.2 || l.any (fun kv => TRAP_MOVES.contains kv.2.id)) := by
  intro l
  induction l with
  | nil => intro st; simp
  | cons kv t ih =>
    intro st
    rw [List.foldl_cons, ih, List.any_cons, List.any_cons]
    by_cases hs : kv.2.id ∈ SLEEP_MOVES
    · have ht : kv.2.id ∉ TRAP_MOVES := by
        have := sleep_not_trap kv.2.id (by simpa using hs)
        simpa using this
      simp [hs, ht]
    · by_cases ht : kv.2.id ∈ TRAP_MOVES
      · simp [hs, ht]
      · simp [hs, ht]

/-- `checkSleepTrap` holds exactly when the table has a sleep move and a
trapping move. -/
lemma checkSleepTrap_eq (t : MoveTable) :
    checkSleepTrap t
      = (t.any (fun kv => SLEEP_MOVES.contains kv.2.id)
          && t.any (fun kv => TRAP_MOVES.contains kv.2.id)) := by
  unfold checkSleepTrap
  rw [checkSleepTrap_fold]
  simp

/-- `tableSet` preserves the invariant that each entry's value has the
entry's key as its id. -/
lemma tableSet_inv : ∀ (t : MoveTable) (k : String) (v : Move), v.id = k →
    (∀ kv ∈ t, kv.2.id = kv.1) → ∀ kv ∈ tableSet t k v, kv.2.id = kv.1 := by
  intro t
  induction t with
  | nil =>
    intro k v hv _ kv hkv
    simp only [tableSet, List.mem_singleton] at hkv
    subst hkv; exact hv
  | cons kv0 t ih =>
    intro k v hv hinv kv hkv
    unfold tableSet at hkv
    split_ifs at hkv with hk
    · rcases List.mem_cons.mp hkv with h | h
      · subst h; simpa [hk] using hv
      · exact hinv kv (List.mem_cons_of_mem _ h)
    · rcases List.mem_cons.mp hkv with h | h
      · subst h; exact hinv kv0 (List.mem_cons_self _ _)
      · exact ih k v hv (fun x hx => hinv x (List.mem_cons_of_mem _ hx)) kv h

/-- Any id-predicate over a table after `tableSet`: the old table's value or
the new key's value. -/
lemma tableSet_any (p : String → Bool) : ∀ (t : MoveTable) (k : String) (v : Move),
    v.id = k → (∀ kv ∈ t, kv.2.id = kv.1) →
    (tableSet t k v).any (fun kv => p kv.2.id)
      = (t.any (fun kv => p kv.2.id) || p k) := by
  intro t
  induction t with
  | nil => intro k v hv _; simp [tableSet, hv]
  | cons kv0 t ih =>
    intro k v hv hinv
    unfold tableSet
    split_ifs with hk
    · have h0 : kv0.2.id = kv0.1 := hinv kv0 (List.mem_cons_self _ _)
      rw [List.any_cons, List.any_cons, hv, h0, hk]
      cases p k <;> cases t.any (fun kv => p kv.2.id) <;> simp
    · rw [List.any_cons, List.any_cons,
        ih k v hv (fun x hx => hinv x (List.mem_cons_of_mem _ hx))]
      cases p kv0.2.id <;> simp

/-- Any id-predicate over the move table built by the move loop: some
resolved move satisfies it, or the initial table already did. -/
lemma moveLoop_table_any (env : Env) (rules : RuleSet) (format : Format) (pokemon : String)
    (p : String → Bool) : ∀ (ms : List String) (t : MoveTable),
    (∀ kv ∈ t, kv.2.id = kv.1) →
    (moveLoop env rules format pokemon t ms).2.any (fun kv => p kv.2.id)
      = ((resolvedMoves env format ms).any (fun mv => p mv.id)
          || t.any (fun kv => p kv.2.id)) := by
  intro ms
  induction ms with
  | nil => intro t _; simp [moveLoop, resolvedMoves]
  | cons m ms ih =>
    intro t hinv
    unfold moveLoop
    cases hmv : env.movesGet m format.gen with
    | none =>
      have hres : resolvedMoves env format (m :: ms) = resolvedMoves env format ms := by
        unfold resolvedMoves
        simp [hmv]
      simp only [hmv, hres]
      exact ih t hinv
    | some move =>
      have hres : resolvedMoves env format (m :: ms) = move :: resolvedMoves env format ms := by
        unfold resolvedMoves
        simp [hmv]
      simp only [hmv, hres]
      rw [List.any_cons,
        ih (tableSet t move.id move) (tableSet_inv t move.id move rfl hinv),
        tableSet_any p t move.id move rfl hinv]
      clear ih
      cases hp : p move.id <;>
        cases hr : (resolvedMoves env format ms).any (fun mv => p mv.id) <;>
        cases hg : t.any (fun kv => p kv.2.id) <;>
        simp [hp, hr, hg]

/-- The sleep-trap problem appears in the moves section exactly when the
generation is 2 and `checkSleepTrap` accepts the built move table. -/
lemma sleepTrap_mem_movesProblems (env : Env) (rules : RuleSet) (set : PokemonSet)
    (format : Format) (pokemon : String) :
    Problem.sleepTrap pokemon format.gen ∈ movesProblems env rules set format pokemon ↔
      format.gen = 2 ∧
        checkSleepTrap (moveLoop env rules format pokemon [] set.moves).2 = true := by
  unfold movesProblems
  by_cases hm : set.moves.length ≠ 0
  · rw [if_pos hm]
    have hA : Problem.sleepTrap pokemon format.gen ∉
        (if 4 < set.moves.length then [Problem.tooManyMoves pokemon] else []) := by
      intro h
      have := kind_of_mem_ite_singleton h
      simp at this
    have hB : Problem.sleepTrap pokemon format.gen ∉
        (moveLoop env rules format pokemon [] set.moves).1 :=
      not_mem_of_kinds (moveLoop_kinds env rules format pokemon set.moves [])
        (by simp [Problem.kind])
    have hD : Problem.sleepTrap pokemon format.gen ∉
        (if rules.clauses.contains "Baton Pass"
            && (tableGet (moveLoop env rules format pokemon [] set.moves).2 "batonpass").isSome
          then
            if checkBatonPass env set format (moveLoop env rules format pokemon [] set.moves).2
            then [Problem.batonPassClause pokemon] else []
          else []) := by
      intro h
      have := kind_of_mem_ite_singleton (mem_ite_nil_elim h)
      simp at this
    simp only [List.mem_append, hA, hB, hD, or_false, false_or]
    split_ifs with h1 h2 <;> simp_all
  · rw [if_neg hm]
    have hnil : set.moves = [] := List.length_eq_zero.mp (not_ne_iff.mp hm)
    constructor
    · intro h
      simp at h
    · rintro ⟨_, hck⟩
      rw [hnil] at hck
      simp [moveLoop, checkSleepTrap] at hck

/-- C5: in a resolved validation, the generation-2 sleep-trap problem
appears exactly when the generation is 2 and the set's resolved moves
contain both a move of the fixed sleep list {hypnosis, lovelykiss, sing,
sleeppowder, spore} and a move of the fixed trap list {meanlook, spiderweb};
either kind alone, or any other generation, never produces it. -/
theorem C5_sleep_trap (env : Env) (set : PokemonSet) (format : Format) (rules : RuleSet)
    (species : Species)
    (h1 : env.rulesGet format = some rules)
    (h2 : env.speciesGet set.species format.gen = some species) :
    Problem.sleepTrap (pokemonName set) format.gen ∈ validate env set format ↔
      format.gen = 2 ∧
      (resolvedMoves env format set.moves).any (fun mv => SLEEP_MOVES.contains mv.id) = true ∧
      (resolvedMoves env format set.moves).any (fun mv => TRAP_MOVES.contains mv.id) = true := by
  rw [mem_validate_iff_moves h1 h2 (by simp [Problem.kind]),
    sleepTrap_mem_movesProblems, checkSleepTrap_eq,
    moveLoop_table_any env rules format (pokemonName set) SLEEP_MOVES.contains set.moves []
      (by simp),
    moveLoop_table_any env rules format (pokemonName set) TRAP_MOVES.contains set.moves []
      (by simp)]
  simp [Bool.and_eq_true]

/-- Witness for C5: a generation-2 Spore + Mean Look set raises the
sleep-trap problem. -/
theorem C5_sleep_trap_witness :
    Problem.sleepTrap "Pikachu" 2 ∈
      validate envSleepTrap { plainSet with moves := ["Spore", "Mean Look"] } ⟨"gen2ou", 2⟩ :=
  (C5_sleep_trap envSleepTrap { plainSet with moves := ["Spore", "Mean Look"] } ⟨"gen2ou", 2⟩
      ⟨[]⟩ plainSpecies rfl rfl).mpr ⟨rfl, by decide, by decide⟩

/-- The SpA/SpD IV parity problem appears in the IV section exactly when
the generation is below 3 and the SpA and SpD IVs differ. -/
lemma ivParity_mem_ivProblems (env : Env) (species : Species) (set : PokemonSet)
    (format : Format) (pokemon : String) :
    Problem.ivParity pokemon set.ivs.spa set.ivs.spd ∈
        ivProblems env species set format pokemon ↔
      format.gen < 3 ∧ set.ivs.spa ≠ set.ivs.spd := by
  unfold ivProblems
  split_ifs <;> simp_all <;> omega

/-- The HP DV problem appears in the IV section exactly when the generation
is 2 and the declared HP IV's DV differs from the helper's derived HP DV. -/
lemma hpDV_mem_ivProblems (env : Env) (species : Species) (set : PokemonSet)
    (format : Format) (pokemon : String) :
    Problem.hpDVMismatch pokemon (env.istods set.ivs).hp (env.getHPDV set.ivs) ∈
        ivProblems env species set format pokemon ↔
      format.gen = 2 ∧ (env.istods set.ivs).hp ≠ env.getHPDV set.ivs := by
  unfold ivProblems
  split_ifs <;> simp_all <;> omega

/-- The shininess problem appears in the IV section exactly when the
generation is 2 and the DV-derived shininess disagrees with the declared
shiny flag. -/
lemma shiny_mem_ivProblems (env : Env) (species : Species) (set : PokemonSet)
    (format : Format) (pokemon : String) :
    Problem.shinyMismatch pokemon set.shiny ∈ ivProblems env species set format pokemon ↔
      format.gen = 2 ∧ expectedShinyGen2 (env.istods set.ivs) ≠ set.shiny := by
  unfold ivProblems
  split_ifs <;> simp_all <;> omega

/-- C7: in a resolved validation whose environment derives the HP DV from
the least-significant bits of the Atk, Def, Spe and Spc DVs (hypothesis
`hHPDV`, the documented behaviour of `pkmn.Stats.getHPDV`): the SpA/SpD IV
parity problem appears exactly below generation 3 with unequal SpA/SpD IVs;
the HP DV problem exactly in generation 2 when the declared HP IV's DV
differs from the derived one; and the shininess problem exactly in
generation 2 when the DV-derived shininess (Def, Spe, SpA DVs equal 10 and
Atk DV mod 4 at least 2) differs from the declared flag. -/
theorem C7_gen12_ivs (env : Env) (set : PokemonSet) (format : Format) (rules : RuleSet)
    (species : Species)
    (h1 : env.rulesGet format = some rules)
    (h2 : env.speciesGet set.species format.gen = some species)
    (hHPDV : env.getHPDV set.ivs = specHPDVFromLSBs (env.istods set.ivs)) :
    (Problem.ivParity (pokemonName set) set.ivs.spa set.ivs.spd ∈ validate env set format ↔
      format.gen < 3 ∧ set.ivs.spa ≠ set.ivs.spd) ∧
    (Problem.hpDVMismatch (pokemonName set) (env.istods set.ivs).hp
        (specHPDVFromLSBs (env.istods set.ivs)) ∈ validate env set format ↔
      format.gen = 2 ∧ (env.istods set.ivs).hp ≠ specHPDVFromLSBs (env.istods set.ivs)) ∧
    (Problem.shinyMismatch (pokemonName set) set.shiny ∈ validate env set format ↔
      format.gen = 2 ∧ expectedShinyGen2 (env.istods set.ivs) ≠ set.shiny) := by
  refine ⟨?_, ?_, ?_⟩
  · rw [mem_validate_iff_iv h1 h2 (by simp [Problem.kind])]
    exact ivParity_mem_ivProblems env species set format (pokemonName set)
  · rw [mem_validate_iff_iv h1 h2 (by simp [Problem.kind]), ← hHPDV]
    exact hpDV_mem_ivProblems env species set format (pokemonName set)
  · rw [mem_validate_iff_iv h1 h2 (by simp [Problem.kind])]
    exact shiny_mem_ivProblems env species set format (pokemonName set)

/-- Witness for C7: in generation 2, a set with SpA IV 1 and SpD IV 0
raises the IV parity problem. -/
theorem C7_gen12_ivs_witness :
    Problem.ivParity "Pikachu" 1 0 ∈
      validate envGen2 { plainSet with ivs := ⟨0, 0, 0, 1, 0, 0⟩ } ⟨"gen2ou", 2⟩ :=
  ((C7_gen12_ivs envGen2 { plainSet with ivs := ⟨0, 0, 0, 1, 0, 0⟩ } ⟨"gen2ou", 2⟩
      ⟨[]⟩ plainSpecies rfl rfl rfl).1).mpr ⟨by decide, by decide⟩

/-- C6: in a resolved validation of a set that declares a gender: a declared
gender different from the species' fixed gender produces the wrong-gender
problem, and in generation 2 a declared gender different from the Atk
DV-derived gender (threshold `femaleRatio * 16`, corrected `4 -> 5` and
`8 -> 7`, DV at or above the threshold meaning male — `expectedGenderGen2`)
produces the gender/DV problem. -/
theorem C6_gender (env : Env) (set : PokemonSet) (format : Format) (rules : RuleSet)
    (species : Species)
    (h1 : env.rulesGet format = some rules)
    (h2 : env.speciesGet set.species format.gen = some species)
    (hg : set.gender ≠ "") :
    (∀ g, species.gender = some g → set.gender ≠ g →
      Problem.wrongGender (pokemonName set) set.gender species.gender ∈
        validate env set format) ∧
    (format.gen = 2 → set.gender ≠ expectedGenderGen2 env species set →
      Problem.genderDVMismatch (pokemonName set) set.gender (env.itod set.ivs.atk)
        (expectedGenderGen2 env species set) ∈ validate env set format) := by
  constructor
  · intro g hgg hne
    rw [mem_validate_iff_gender h1 h2 (by simp [Problem.kind])]
    unfold genderProblems
    rw [if_pos hg]
    apply List.mem_append_left
    rw [if_pos]
    · exact List.mem_singleton.mpr rfl
    · rw [hgg]
      simpa using Ne.symm hne
  · intro hgen hne
    rw [mem_validate_iff_gender h1 h2 (by simp [Problem.kind])]
    unfold genderProblems
    rw [if_pos hg]
    apply List.mem_append_right
    rw [if_pos hgen, if_pos hne]
    exact List.mem_singleton.mpr rfl

/-- Witness for C6: a declared-female Nidoran-M (fixed gender male) raises
the wrong-gender problem. -/
theorem C6_gender_witness :
    Problem.wrongGender "Nidoran-M" "F" (some "M") ∈
      validate envGender { plainSet with species := "Nidoran-M", gender := "F" }
        ⟨"gen2ou", 2⟩ :=
  (C6_gender envGender { plainSet with species := "Nidoran-M", gender := "F" } ⟨"gen2ou", 2⟩
      ⟨[]⟩ nidoranM rfl rfl (by decide)).1 "M" rfl (by decide)

/-- A conditional singleton of a foreign kind contributes no count. -/
lemma countP_ite_singleton_zero {c : Prop} [Decidable c] {x : Problem} {k : Nat}
    (hk : ¬ kindIs k x = true) : (if c then [x] else []).countP (kindIs k) = 0 := by
  split_ifs
  · rw [List.countP_cons_of_neg _ _ hk]
    rfl
  · rfl

/-- A nested conditional singleton of a foreign kind contributes no
count. -/
lemma countP_ite_ite_singleton_zero {c d : Prop} [Decidable c] [Decidable d] {x : Problem}
    {k : Nat} (hk : ¬ kindIs k x = true) :
    (if c then if d then [x] else [] else []).countP (kindIs k) = 0 := by
  split_ifs
  · rw [List.countP_cons_of_neg _ _ hk]
    rfl
  all_goals rfl

/-- The clause checks never emit a duplicate-move problem. -/
lemma clauseChecks_countP_dup (rules : RuleSet) (move : Move) :
    (clauseChecks rules move).countP (kindIs 10) = 0 := by
  unfold clauseChecks
  split_ifs <;> rfl

/-- With the OHKO clause active, the clause checks emit exactly one OHKO
problem for an OHKO move and none otherwise. -/
lemma clauseChecks_countP_ohko (rules : RuleSet) (move : Move)
    (hc : rules.clauses.contains "OHKO" = true) :
    (clauseChecks rules move).countP (kindIs 11) = if move.ohko then 1 else 0 := by
  unfold clauseChecks
  cases hmo : move.ohko
  · simp only [hc, hmo, Bool.and_false, Bool.false_eq_true, if_false]
    split_ifs <;> rfl
  · simp only [hc, hmo, Bool.and_true, if_true]
    rfl

/-- `tableGet` succeeds exactly on the keys of the table. -/
lemma tableGet_isSome_iff : ∀ (t : MoveTable) (k : String),
    (tableGet t k).isSome = true ↔ k ∈ t.map Prod.fst := by
  intro t
  induction t with
  | nil => intro k; simp [tableGet]
  | cons kv t ih =>
    obtain ⟨k0, v0⟩ := kv
    intro k
    simp only [tableGet]
    split_ifs with h
    · simp [h]
    · simp only [List.map_cons, List.mem_cons]
      rw [ih k]
      constructor
      · exact Or.inr
      · rintro (hk | hk)
        · exact absurd hk.symm h
        · exact hk

/-- The key set after `tableSet` is the old key set plus the new key. -/
lemma tableSet_keys : ∀ (t : MoveTable) (k : String) (v : Move),
    ((tableSet t k v).map Prod.fst).toFinset = insert k ((t.map Prod.fst).toFinset) := by
  intro t
  induction t with
  | nil => intro k v; simp [tableSet]
  | cons kv t ih =>
    obtain ⟨k0, v0⟩ := kv
    intro k v
    simp only [tableSet]
    split_ifs with h
    · subst h
      simp
    · simp only [List.map_cons, List.toFinset_cons, ih]
      exact Finset.Insert.comm k0 k _

/-- Walking the move loop: the number of duplicate-move problems plus the
number of resolved ids not already keyed equals the number of resolved
ids. -/
lemma moveLoop_countDup (env : Env) (rules : RuleSet) (format : Format) (pokemon : String) :
    ∀ (ms : List String) (t : MoveTable),
    (moveLoop env rules format pokemon t ms).1.countP (kindIs 10)
        + ((resolvedIds env format ms).toFinset \ ((t.map Prod.fst).toFinset)).card
      = (resolvedIds env format ms).length := by
  intro ms
  induction ms with
  | nil => intro t; simp [moveLoop, resolvedIds, resolvedMoves]
  | cons m ms ih =>
    intro t
    unfold moveLoop
    cases hmv : env.movesGet m format.gen with
    | none =>
      have hres : resolvedIds env format (m :: ms) = resolvedIds env format ms := by
        unfold resolvedIds resolvedMoves
        simp [hmv]
      simp only [hmv, hres]
      rw [List.countP_cons_of_neg _ _ (by simp [kindIs, Problem.kind])]
      exact ih t
    | some move =>
      have hres : resolvedIds env format (m :: ms) = move.id :: resolvedIds env format ms := by
        unfold resolvedIds resolvedMoves
        simp [hmv]
      simp only [hmv, hres, List.toFinset_cons, List.length_cons]
      rw [List.countP_append, List.countP_append, clauseChecks_countP_dup]
      have hIH := ih (tableSet t move.id move)
      rw [tableSet_keys] at hIH
      by_cases hget : (tableGet t move.id).isSome = true
      · have hiK : move.id ∈ (t.map Prod.fst).toFinset :=
          List.mem_toFinset.mpr ((tableGet_isSome_iff t move.id).mp hget)
        rw [if_pos hget]
        rw [Finset.insert_eq_self.mpr hiK] at hIH
        rw [Finset.insert_sdiff_of_mem _ hiK]
        have hone : List.countP (kindIs 10) [Problem.duplicateMove pokemon move.name] = 1 := rfl
        rw [hone]
        omega
      · have hiK : move.id ∉ (t.map Prod.fst).toFinset := fun hmem =>
          hget ((tableGet_isSome_iff t move.id).mpr (List.mem_toFinset.mp hmem))
        rw [if_neg hget]
        rw [Finset.sdiff_insert] at hIH
        rw [Finset.insert_sdiff_of_not_mem _ hiK]
        by_cases hiS : move.id ∈ (resolvedIds env format ms).toFinset \ (t.map Prod.fst).toFinset
        · rw [Finset.insert_eq_self.mpr hiS]
          rw [Finset.card_erase_of_mem hiS] at hIH
          have hpos := Finset.card_pos.mpr ⟨move.id, hiS⟩
          have hzero : List.countP (kindIs 10) [] = 0 := rfl
          rw [hzero]
          omega
        · rw [Finset.card_insert_of_not_mem hiS]
          rw [Finset.erase_eq_of_not_mem hiS] at hIH
          have hzero : List.countP (kindIs 10) [] = 0 := rfl
          rw [hzero]
          omega

/-- Walking the move loop with the OHKO clause active: one OHKO problem per
resolved OHKO move, duplicates included. -/
lemma moveLoop_countOhko (env : Env) (rules : RuleSet) (format : Format) (pokemon : String)
    (hc : rules.clauses.contains "OHKO" = true) :
    ∀ (ms : List String) (t : MoveTable),
    (moveLoop env rules format pokemon t ms).1.countP (kindIs 11)
      = ((resolvedMoves env format ms).filter (fun mv => mv.ohko)).length := by
  intro ms
  induction ms with
  | nil => intro t; simp [moveLoop, resolvedMoves]
  | cons m ms ih =>
    intro t
    unfold moveLoop
    cases hmv : env.movesGet m format.gen with
    | none =>
      have hres : resolvedMoves env format (m :: ms) = resolvedMoves env format ms := by
        unfold resolvedMoves
        simp [hmv]
      simp only [hmv, hres]
      rw [List.countP_cons_of_neg _ _ (by simp [kindIs, Problem.kind])]
      exact ih t
    | some move =>
      have hres : resolvedMoves env format (m :: ms) = move :: resolvedMoves env format ms := by
        unfold resolvedMoves
        simp [hmv]
      simp only [hmv, hres, List.filter_cons]
      rw [List.countP_append, List.countP_append,
        countP_ite_singleton_zero (by simp [kindIs, Problem.kind]),
        clauseChecks_countP_ohko rules move hc, ih (tableSet t move.id move)]
      cases hmo : move.ohko
      · simp
      · simp
        omega

/-- The moves section's duplicate count is the loop's duplicate count. -/
lemma movesProblems_countP_dup (env : Env) (rules : RuleSet) (set : PokemonSet)
    (format : Format) (pokemon : String) :
    (movesProblems env rules set format pokemon).countP (kindIs 10)
      = (moveLoop env rules format pokemon [] set.moves).1.countP (kindIs 10) := by
  unfold movesProblems
  by_cases hm : set.moves.length ≠ 0
  · rw [if_pos hm, List.countP_append, List.countP_append, List.countP_append,
      countP_ite_singleton_zero (by simp [kindIs, Problem.kind]),
      countP_ite_ite_singleton_zero (by simp [kindIs, Problem.kind]),
      countP_ite_ite_singleton_zero (by simp [kindIs, Problem.kind])]
    omega
  · rw [if_neg hm]
    have hnil : set.moves = [] := List.length_eq_zero.mp (not_ne_iff.mp hm)
    rw [hnil]
    rfl

/-- The moves section's OHKO count is the loop's OHKO count. -/
lemma movesProblems_countP_ohko (env : Env) (rules : RuleSet) (set : PokemonSet)
    (format : Format) (pokemon : String) :
    (movesProblems env rules set format pokemon).countP (kindIs 11)
      = (moveLoop env rules format pokemon [] set.moves).1.countP (kindIs 11) := by
  unfold movesProblems
  by_cases hm : set.moves.length ≠ 0
  · rw [if_pos hm, List.countP_append, List.countP_append, List.countP_append,
      countP_ite_singleton_zero (by simp [kindIs, Problem.kind]),
      countP_ite_ite_singleton_zero (by simp [kindIs, Problem.kind]),
      countP_ite_ite_singleton_zero (by simp [kindIs, Problem.kind])]
    omega
  · rw [if_neg hm]
    have hnil : set.moves = [] := List.length_eq_zero.mp (not_ne_iff.mp hm)
    rw [hnil]
    rfl

/-- C4: in a resolved validation, the number of duplicate-move problems is
the number of resolved move occurrences minus the number of distinct
resolved ids (stated additively: duplicates + distinct = occurrences), so a
move listed n times yields n - 1 duplicate problems; and with the OHKO
clause active every resolved occurrence of an OHKO move — duplicated or not
— yields its own OHKO clause problem, so duplicated moves are still subject
to the per-move clause checks. -/
theorem C4_duplicate_moves (env : Env) (set : PokemonSet) (format : Format) (rules : RuleSet)
    (species : Species)
    (h1 : env.rulesGet format = some rules)
    (h2 : env.speciesGet set.species format.gen = some species) :
    ((validate env set format).countP (kindIs 10)
        + (resolvedIds env format set.moves).toFinset.card
      = (resolvedIds env format set.moves).length) ∧
    (rules.clauses.contains "OHKO" = true →
      (validate env set format).countP (kindIs 11)
        = ((resolvedMoves env format set.moves).filter (fun mv => mv.ohko)).length) := by
  constructor
  · rw [validate_resolved h1 h2]
    simp only [List.countP_append]
    rw [countP_kindIs_zero (tierProblems_kinds _ _) (by decide),
      countP_kindIs_zero (levelProblems_kinds _ _ _ _ _) (by decide),
      countP_kindIs_zero (genderProblems_kinds _ _ _ _ _) (by decide),
      countP_kindIs_zero (evProblems_kinds _ _ _) (by decide),
      countP_kindIs_zero (ivProblems_kinds _ _ _ _ _) (by decide),
      countP_kindIs_zero (natureProblems_kinds _ _ _ _) (by decide),
      countP_kindIs_zero (abilityProblems_kinds _ _ _ _ _) (by decide),
      countP_kindIs_zero (itemProblems_kinds _ _ _ _ _) (by decide),
      movesProblems_countP_dup]
    have h := moveLoop_countDup env rules format (pokemonName set) set.moves []
    simp only [List.map_nil, List.toFinset_nil, Finset.sdiff_empty] at h
    omega
  · intro hc
    rw [validate_resolved h1 h2]
    simp only [List.countP_append]
    rw [countP_kindIs_zero (tierProblems_kinds _ _) (by decide),
      countP_kindIs_zero (levelProblems_kinds _ _ _ _ _) (by decide),
      countP_kindIs_zero (genderProblems_kinds _ _ _ _ _) (by decide),
      countP_kindIs_zero (evProblems_kinds _ _ _) (by decide),
      countP_kindIs_zero (ivProblems_kinds _ _ _ _ _) (by decide),
      countP_kindIs_zero (natureProblems_kinds _ _ _ _) (by decide),
      countP_kindIs_zero (abilityProblems_kinds _ _ _ _ _) (by decide),
      countP_kindIs_zero (itemProblems_kinds _ _ _ _ _) (by decide),
      movesProblems_countP_ohko,
      moveLoop_countOhko env rules format (pokemonName set) hc set.moves []]
    omega

/-- Witness for C4: a set listing Spore three times yields two duplicate
problems (3 occurrences, 1 distinct id). -/
theorem C4_duplicate_moves_witness :
    (validate envSleepTrap { plainSet with moves := ["Spore", "Spore", "Spore"] }
        ⟨"gen2ou", 2⟩).countP (kindIs 10) + 1 = 3 :=
  let set3 : PokemonSet := { plainSet with moves := ["Spore", "Spore", "Spore"] }
  have h := (C4_duplicate_moves envSleepTrap set3 ⟨"gen2ou", 2⟩ ⟨[]⟩ plainSpecies rfl rfl).1
  by
    have hcard : (resolvedIds envSleepTrap ⟨"gen2ou", 2⟩ set3.moves).toFinset.card = 1 := by
      decide
    have hlen : (resolvedIds envSleepTrap ⟨"gen2ou", 2⟩ set3.moves).length = 3 := by decide
    rw [hcard, hlen] at h
    exact h

/-- C3 (code bug): the source resolves the ability string with
`pkmn.Items.get` — the item table — instead of an ability table (src/sets.ts
line 207), so in a generation-7 validation the ability "Leftovers" (an item
name that is not a valid ability: the ability table returns `none`) raises
no "is not a valid ability" problem (kind 27), while the genuine ability
"Intimidate" (absent from the item table) wrongly raises one. -/
theorem C3_ability_lookup_bug :
    (envAbility.abilitiesGet "Leftovers" 7 = none ∧
      (validate envAbility { plainSet with ability := "Leftovers" } ⟨"gen7ou", 7⟩).any
        (kindIs 27) = false) ∧
    ((envAbility.abilitiesGet "Intimidate" 7).isSome = true ∧
      Problem.invalidAbility "Intimidate" 7 ∈
        validate envAbility { plainSet with ability := "Intimidate" } ⟨"gen7ou", 7⟩) := by
  refine ⟨⟨rfl, ?_⟩, ⟨rfl, ?_⟩⟩ <;> decide

/-- `truthy` on the `bool` constructor. -/
lemma truthy_bool (b : Bool) : (BoostVal.bool b).truthy = b := rfl

/-- `truthy` on the `str` constructor. -/
lemma truthy_str (s : String) : (BoostVal.str s).truthy = (s != "") := rfl

/-- `(if c then a else b).truthy` pushes into the branches. -/
lemma truthy_ite {c : Prop} [Decidable c] (a b : BoostVal) :
    (if c then a else b).truthy = if c then a.truthy else b.truthy := by
  split_ifs <;> rfl

/-- One step of the Baton Pass loop: the speed attribution is truthy after
the step exactly when it was before, or the move Speed-boosts ordinarily, or
it Z-Speed-boosts with a matching crystal (move names are nonempty, so a
name attribution is truthy). -/
lemma bpStep_fst_truthy (item : Option Item) (st : BoostVal × BoostVal) (mv : Move)
    (h : mv.name ≠ "") :
    (bpStep item st mv).1.truthy
      = (st.1.truthy || moveSpeedBoost mv || zSpeedBoost item mv) := by
  unfold bpStep zSpeedBoost
  cases hz : zMatches item mv <;>
    cases hm : moveSpeedBoost mv <;>
      cases hp : posSpe mv.zMoveBoosts <;>
        cases ht : st.1.truthy <;>
          simp [hz, hm, hp, ht, truthy_ite, truthy_bool, truthy_str, bne_iff_ne, h]

/-- One step of the Baton Pass loop, non-speed side. -/
lemma bpStep_snd_truthy (item : Option Item) (st : BoostVal × BoostVal) (mv : Move)
    (h : mv.name ≠ "") :
    (bpStep item st mv).2.truthy
      = (st.2.truthy || moveNonSpeedBoost mv || zNonSpeedBoost item mv) := by
  unfold bpStep zNonSpeedBoost
  cases hz : zMatches item mv <;>
    cases hm : moveNonSpeedBoost mv <;>
      cases hp : posNonSpe mv.zMoveBoosts <;>
        cases ht : st.2.truthy <;>
          simp [hz, hm, hp, ht, truthy_ite, truthy_bool, truthy_str, bne_iff_ne, h]

/-- The Baton Pass loop's attributions are truthy exactly when the initial
state was or some processed move supplies the corresponding boost. -/
lemma bpFold_truthy (item : Option Item) : ∀ (l : List Move) (st : BoostVal × BoostVal),
    (∀ mv ∈ l, mv.name ≠ "") →
    ((l.foldl (bpStep item) st).1.truthy
        = (st.1.truthy || l.any (fun mv => moveSpeedBoost mv || zSpeedBoost item mv))) ∧
    ((l.foldl (bpStep item) st).2.truthy
        = (st.2.truthy || l.any (fun mv => moveNonSpeedBoost mv || zNonSpeedBoost item mv))) := by
  intro l
  induction l with
  | nil => intro st _; simp
  | cons mv l ih =>
    intro st hn
    have hmv : mv.name ≠ "" := hn mv (List.mem_cons_self _ _)
    have hrest : ∀ m ∈ l, m.name ≠ "" := fun m hm => hn m (List.mem_cons_of_mem _ hm)
    rw [List.foldl_cons, List.any_cons, List.any_cons]
    constructor
    · rw [(ih _ hrest).1, bpStep_fst_truthy item st mv hmv]
      simp [Bool.or_assoc]
    · rw [(ih _ hrest).2, bpStep_snd_truthy item st mv hmv]
      simp [Bool.or_assoc]

/-- The final speed attribution of `checkBatonPass` is truthy exactly when
the set has a speed-boost source in the claim's sense. -/
lemma bpAttributions_fst_truthy (env : Env) (set : PokemonSet) (format : Format)
    (moves : MoveTable) (h : ∀ kv ∈ moves, kv.2.name ≠ "") :
    (bpAttributions env set format moves).1.truthy
      = specHasSpeedSource env set format moves := by
  have hnames : ∀ mv ∈ moves.map Prod.snd, mv.name ≠ "" := by
    intro mv hmv
    rcases List.mem_map.mp hmv with ⟨kv, hkv, rfl⟩
    exact h kv hkv
  unfold bpAttributions specHasSpeedSource
  cases hC : sbOverride env set format
  · simp only [hC, Bool.false_eq_true, if_false, Bool.or_false]
    rw [(bpFold_truthy (env.itemsGet set.item format.gen) (moves.map Prod.snd) _ hnames).1]
    simp [truthy_bool]
  · simp [hC, truthy_bool]

/-- The final non-speed attribution of `checkBatonPass` is truthy exactly
when the set has a non-speed-boost source in the claim's sense. -/
lemma bpAttributions_snd_truthy (env : Env) (set : PokemonSet) (format : Format)
    (moves : MoveTable) (h : ∀ kv ∈ moves, kv.2.name ≠ "") :
    (bpAttributions env set format moves).2.truthy
      = specHasNonSpeedSource env set format moves := by
  have hnames : ∀ mv ∈ moves.map Prod.snd, mv.name ≠ "" := by
    intro mv hmv
    rcases List.mem_map.mp hmv with ⟨kv, hkv, rfl⟩
    exact h kv hkv
  unfold bpAttributions specHasNonSpeedSource
  cases hC : nsbOverride env set format
  · simp only [hC, Bool.false_eq_true, if_false, Bool.or_false]
    rw [(bpFold_truthy (env.itemsGet set.item format.gen) (moves.map Prod.snd) _ hnames).2]
    simp [truthy_bool]
  · simp [hC, truthy_bool]

/-- C1: for a move table containing Baton Pass under a ruleset with the
Baton Pass clause (and nonempty move display names, as in the real data),
`checkBatonPass` reports the banned combination exactly when the set has at
least one speed-boost source and at least one non-speed-boost source — as
computed from the moves, the Z-move boosts under a matching-type Z-crystal,
and the fixed ability/item sets — and the exemption does not apply: the
exemption holds only when both attributions are Z-move-derived move names
(`isStr`) referring to two distinct moves.  In particular the right-hand
side is false, and the check returns `false`, whenever either source kind
is absent. -/
theorem C1_baton_pass (env : Env) (set : PokemonSet) (format : Format) (rules : RuleSet)
    (moves : MoveTable)
    (hclause : rules.clauses.contains "Baton Pass" = true)
    (hbp : (tableGet moves "batonpass").isSome = true)
    (hnames : ∀ kv ∈ moves, kv.2.name ≠ "") :
    checkBatonPass env set format moves = true ↔
      specHasSpeedSource env set format moves = true ∧
      specHasNonSpeedSource env set format moves = true ∧
      ¬((bpAttributions env set format moves).1.isStr = true ∧
        (bpAttributions env set format moves).2.isStr = true ∧
        (bpAttributions env set format moves).1 ≠ (bpAttributions env set format moves).2) := by
  unfold checkBatonPass
  rw [← bpAttributions_fst_truthy env set format moves hnames,
    ← bpAttributions_snd_truthy env set format moves hnames]
  cases h1 : (bpAttributions env set format moves).1.truthy <;>
    cases h2 : (bpAttributions env set format moves).2.truthy <;>
      cases hs1 : (bpAttributions env set format moves).1.isStr <;>
        cases hs2 : (bpAttributions env set format moves).2.isStr <;>
          simp [h1, h2, hs1, hs2, Bool.and_eq_true, Bool.not_eq_true', bne_eq_false_iff_eq,
            bne_iff_ne]

/-- Witness for C1: Baton Pass alone, with no boosting move, ability or
item, is not flagged. -/
theorem C1_baton_pass_witness :
    checkBatonPass envNoFormat plainSet ⟨"gen7ou", 7⟩ [("batonpass", batonPassMove)]
      = false := by
  have h := C1_baton_pass envNoFormat plainSet ⟨"gen7ou", 7⟩ ⟨["Baton Pass"]⟩
    [("batonpass", batonPassMove)] (by decide) (by decide) (by decide)
  cases hc : checkBatonPass envNoFormat plainSet ⟨"gen7ou", 7⟩ [("batonpass", batonPassMove)]
  · rfl
  · exact absurd (h.mp hc) (by decide)

end Datax
